import Mathlib

/-!
# Verification of the Cobra/Nomad type checker (`src/libcobra/src/typechecker/typecheck.rs`)

This file gives a shallow embedding of the expression type checker and the
module driver of the Cobra/Nomad compiler, together with theorems settling a
list of claims about it.

The file `typecheck.rs` is embedded function by function.  The modules it
depends on (the `Type` model in `ast/types.rs`, the scope stack in
`typecheckercontext.rs`, the generic mapper, the instantiator, and the match
exhaustiveness checker) are not part of the available sources; definitions for
them are modelled from the specification and are marked with a doc comment
starting with `Modelled from the spec:`.

The Rust in-place mutation (`&mut` nodes, `&mut` context) is modelled by state
passing: every checking function returns the computed type together with the
updated scope context and the rewritten expression node.  Recursion of
`type_check_expression` is modelled with an explicit fuel parameter; running
out of fuel yields the distinguished error `CompileError.outOfFuel`, which the
real program never produces.
-/

/-- Binary and unary operators of the language (`ast/operations.rs`, as used by
`typecheck.rs`). -/
inductive Operator where
  | add | sub | mul | div | mod
  | lessThan | greaterThan | lessThanEquals | greaterThanEquals
  | and | or | equals | notEquals
  | not
  deriving DecidableEq, Repr

mutual
/-- The `Type` tagged union of the spec (§3): primitives, pointers, arrays,
slices, optionals, structs, sums, enums, function types, generics and
interfaces.  Member and case lists are represented by the mutually inductive
list types below so that decidable equality can be derived. -/
inductive Ty where
  | int | uint | float | bool | char | string | void | nil | unknown
  | pointer (inner : Ty)
  | array (elementType : Ty) (len : Nat)
  | slice (elementType : Ty)
  | optional (inner : Ty)
  | struct1 (name : String) (members : MemberList)
  | sum (name : String) (cases : MemberList)
  | enum (name : String) (cases : List String)
  | func (args : TyList) (returnType : Ty)
  | genericAny (name : String)
  | genericRestricted (interfaces : TyList)
  | interface (name : String) (functions : SigList)
  deriving DecidableEq, Repr

/-- A list of named members: struct members `(name, Type)` or sum type cases
`(name, payload Type)`. -/
inductive MemberList where
  | nil
  | cons (name : String) (typ : Ty) (rest : MemberList)
  deriving DecidableEq, Repr

/-- A list of types (function argument lists, interface lists). -/
inductive TyList where
  | nil
  | cons (typ : Ty) (rest : TyList)
  deriving DecidableEq, Repr

/-- A list of function signatures of an interface: `(name, argument types,
return type)`. -/
inductive SigList where
  | nil
  | cons (name : String) (args : TyList) (returnType : Ty) (rest : SigList)
  deriving DecidableEq, Repr
end

/-- Length of a member list. -/
def MemberList.length : MemberList → Nat
  | .nil => 0
  | .cons _ _ rest => 1 + rest.length

/-- The list of member types, in order (`members.iter().map(|sm| sm.typ)`). -/
def MemberList.types : MemberList → List Ty
  | .nil => []
  | .cons _ t rest => t :: rest.types

/-- Embeds `index_of`: position of the member with the given name. -/
def MemberList.indexOf (ms : MemberList) (name : String) : Option Nat :=
  match ms with
  | .nil => none
  | .cons n _ rest =>
      if n = name then some 0 else (rest.indexOf name).map (· + 1)

/-- Lookup of a member by name, returning its type. -/
def MemberList.lookup (ms : MemberList) (name : String) : Option Ty :=
  match ms with
  | .nil => none
  | .cons n t rest => if n = name then some t else rest.lookup name

/-- Lookup of a member by position, returning name and type. -/
def MemberList.get : MemberList → Nat → Option (String × Ty)
  | .nil, _ => none
  | .cons n t _, 0 => some (n, t)
  | .cons _ _ rest, i + 1 => rest.get i

/-- Position of a member together with its type (`find_member_type`). -/
def MemberList.findWithIndex (ms : MemberList) (name : String) :
    Option (Nat × Ty) :=
  match ms with
  | .nil => none
  | .cons n t rest =>
      if n = name then some (0, t)
      else (rest.findWithIndex name).map (fun p => (p.1 + 1, p.2))

/-- Convert a `MemberList` to an ordinary list of pairs. -/
def MemberList.toList : MemberList → List (String × Ty)
  | .nil => []
  | .cons n t rest => (n, t) :: rest.toList

/-- Build a `MemberList` from a list of pairs. -/
def MemberList.ofList : List (String × Ty) → MemberList
  | [] => .nil
  | (n, t) :: rest => .cons n t (MemberList.ofList rest)

/-- Length of a type list. -/
def TyList.length : TyList → Nat
  | .nil => 0
  | .cons _ rest => 1 + rest.length

/-- Convert a `TyList` to an ordinary list. -/
def TyList.toList : TyList → List Ty
  | .nil => []
  | .cons t rest => t :: rest.toList

/-- Build a `TyList` from an ordinary list. -/
def TyList.ofList : List Ty → TyList
  | [] => .nil
  | t :: rest => .cons t (TyList.ofList rest)

mutual
/-- Embeds `is_generic`: structurally true iff any sub-term is a `Generic` (spec
§4.1). -/
def Ty.isGeneric : Ty → Bool
  | .genericAny _ => true
  | .genericRestricted _ => true
  | .pointer t => t.isGeneric
  | .array t _ => t.isGeneric
  | .slice t => t.isGeneric
  | .optional t => t.isGeneric
  | .struct1 _ ms => ms.anyGeneric
  | .sum _ cs => cs.anyGeneric
  | .func args ret => args.anyGeneric || ret.isGeneric
  | _ => false

/-- Any member type generic. -/
def MemberList.anyGeneric : MemberList → Bool
  | .nil => false
  | .cons _ t rest => t.isGeneric || rest.anyGeneric

/-- Any type of the list generic. -/
def TyList.anyGeneric : TyList → Bool
  | .nil => false
  | .cons t rest => t.isGeneric || rest.anyGeneric
end

/-- Modelled from the spec: `is_numeric(t)` is `Int|UInt|Float` (§4.1). -/
def Ty.isNumeric : Ty → Bool
  | .int | .uint | .float => true
  | _ => false

/-- Modelled from the spec: `is_bool`. -/
def Ty.isBool : Ty → Bool
  | .bool => true
  | _ => false

/-- Modelled from the spec: `is_unknown`. -/
def Ty.isUnknown : Ty → Bool
  | .unknown => true
  | _ => false

/-- Modelled from the spec: `is_optional`. -/
def Ty.isOptional : Ty → Bool
  | .optional _ => true
  | _ => false

/-- Modelled from the spec: `is_sequence` is array/slice/string (§4.1). -/
def Ty.isSequence : Ty → Bool
  | .array _ _ | .slice _ | .string => true
  | _ => false

/-- Modelled from the spec: `is_optional_of` — `Optional(T)` against `T`. -/
def Ty.isOptionalOf (t other : Ty) : Bool :=
  t = Ty.optional other

/-- Modelled from the spec: `get_element_type` — element of
array/slice/string/optional, undefined otherwise (§4.1). -/
def Ty.getElementType : Ty → Option Ty
  | .array t _ => some t
  | .slice t => some t
  | .string => some .char
  | .optional t => some t
  | _ => none

/-- Modelled from the spec: `is_operator_supported` — arithmetic on numerics,
`+` on strings, comparison on ordered primitives, equality on anything
structural (§4.1). -/
def Ty.isOperatorSupported (t : Ty) (op : Operator) : Bool :=
  match op with
  | .add => t.isNumeric || t = Ty.string
  | .sub | .mul | .div | .mod => t.isNumeric
  | .lessThan | .greaterThan | .lessThanEquals | .greaterThanEquals =>
      t.isNumeric || t = Ty.char || t = Ty.string
  | .equals | .notEquals => true
  | _ => false

/-- Modelled from the spec: the convertibility relation is deliberately small
and asymmetric — `T` lifts to `Optional(T)` and `Array(T,n)` lifts to
`Slice(T)` (§4.1, §6). -/
def Ty.isConvertible (src dst : Ty) : Bool :=
  dst = Ty.optional src ||
    match dst, src with
    | .slice t, .array et _ => t = et
    | _, _ => false

/-- Modelled from the spec: `is_matchable(target, pattern_type)` — a literal
pattern matches a target of the same type, and an array literal pattern
matches a sequence target with the same element type (§4.1, §4.4). -/
def Ty.isMatchable (target mtyp : Ty) : Bool :=
  target = mtyp ||
    match target, mtyp with
    | .slice t, .array et _ => t = et
    | .array t _, .array et _ => t = et
    | _, _ => false

/-- Embeds `array_type` constructor (`ast/types.rs`). -/
def arrayType (elementType : Ty) (len : Nat) : Ty :=
  Ty.array elementType len

/-- Embeds `slice_type` constructor. -/
def sliceType (elementType : Ty) : Ty :=
  Ty.slice elementType

/-- Embeds `optional_type` constructor. -/
def optionalType (inner : Ty) : Ty :=
  Ty.optional inner

/-- Embeds `ptr_type` constructor. -/
def ptrType (inner : Ty) : Ty :=
  Ty.pointer inner

/-- Modelled from the spec: the error kinds of §7 that the embedded part of
the checker produces.  `unknownType` is distinguished because the
binding-expression checker catches it to retry with a hint.  `outOfFuel` is an
artifact of the fuel-based embedding and is never produced by the program. -/
inductive CompileError where
  | typeError (msg : String)
  | unknownName (msg : String)
  | unknownType (name : String) (expected : Ty)
  | nonExhaustiveMatch
  | internalError
  | outOfFuel
  deriving DecidableEq, Repr

/-- Resolution result of the scope stack: `{full_name, type, mutable}`
(spec §4.2). -/
structure ResolvedName where
  fullName : String
  typ : Ty
  mutable1 : Bool
  deriving DecidableEq, Repr

/-- Modelled from the spec: one entry of a scope frame, a name mapped to
`(fully-qualified-name, type, mutability)` (§4.2). -/
structure ScopeEntry where
  name : String
  fullName : String
  typ : Ty
  mutable1 : Bool
  deriving DecidableEq, Repr

/-- Modelled from the spec: a scope frame; a function-boundary frame opaques
outer non-global names (§4.2). -/
structure ScopeFrame where
  boundary : Bool
  entries : List ScopeEntry
  deriving DecidableEq, Repr

/-- Modelled from the spec: the `TypeCheckerContext` scope stack — a stack of
frames plus a separate globals layer (§4.2). -/
structure Ctx where
  frames : List ScopeFrame
  globals : List ScopeEntry
  deriving DecidableEq, Repr

/-- Embeds `TypeCheckerContext::new`, starting with one empty frame. -/
def Ctx.new : Ctx :=
  ⟨[⟨false, []⟩], []⟩

/-- Modelled from the spec: `push_stack(is_function_boundary)`. -/
def Ctx.pushStack (ctx : Ctx) (boundary : Bool) : Ctx :=
  { ctx with frames := ⟨boundary, []⟩ :: ctx.frames }

/-- Modelled from the spec: `pop_stack`. -/
def Ctx.popStack (ctx : Ctx) : Ctx :=
  { ctx with frames := ctx.frames.tail }

/-- Lookup of a name in the entries of a single frame. -/
def scopeLookup (entries : List ScopeEntry) (name : String) : Option ScopeEntry :=
  entries.find? (fun e => e.name = name)

/-- Top-to-bottom search of the frames, stopping at a function boundary. -/
def resolveFrames : List ScopeFrame → String → Option ScopeEntry
  | [], _ => none
  | f :: rest, name =>
      match scopeLookup f.entries name with
      | some e => some e
      | none => if f.boundary then none else resolveFrames rest name

/-- Modelled from the spec: `resolve(name)` — searches the frames
top-to-bottom (stopping at a function boundary), then the globals (§4.2). -/
def Ctx.resolve (ctx : Ctx) (name : String) : Option ResolvedName :=
  match resolveFrames ctx.frames name with
  | some e => some ⟨e.fullName, e.typ, e.mutable1⟩
  | none => (scopeLookup ctx.globals name).map fun e => ⟨e.fullName, e.typ, e.mutable1⟩

/-- Modelled from the spec: `add(name, type, mutable)` — fails with a
redefinition error if the name is already in the top frame (§4.2). -/
def Ctx.add (ctx : Ctx) (name : String) (typ : Ty) (mutable1 : Bool) :
    Except CompileError Ctx :=
  match ctx.frames with
  | [] => .error .internalError
  | f :: rest =>
      if (scopeLookup f.entries name).isSome then
        .error (.typeError "redefinition")
      else
        .ok { ctx with frames := ⟨f.boundary, f.entries ++ [⟨name, name, typ, mutable1⟩]⟩ :: rest }

/-- Overwrite the first entry with the given name in a frame list. -/
def updateFrames (name : String) (typ : Ty) (mutable1 : Bool) :
    List ScopeFrame → List ScopeFrame
  | [] => []
  | f :: rest =>
      if (scopeLookup f.entries name).isSome then
        ⟨f.boundary,
          f.entries.map fun e =>
            if e.name = name then ⟨e.name, e.fullName, typ, mutable1⟩ else e⟩ :: rest
      else f :: updateFrames name typ mutable1 rest

/-- Modelled from the spec: `update(name, type, mutable)` — overwrites an
entry once, used when the checker revisits a binding with a type hint
(§4.2). -/
def Ctx.update (ctx : Ctx) (name : String) (typ : Ty) (mutable1 : Bool) : Ctx :=
  { ctx with frames := updateFrames name typ mutable1 ctx.frames }

/-- Modelled from the spec: `add_global` — separate layer that survives
across function boundaries (§4.2). -/
def Ctx.addGlobal (ctx : Ctx) (name : String) (typ : Ty) (mutable1 : Bool) :
    Except CompileError Ctx :=
  if (scopeLookup ctx.globals name).isSome then
    .error (.typeError "redefinition")
  else
    .ok { ctx with globals := ctx.globals ++ [⟨name, name, typ, mutable1⟩] }

/-- A name reference AST node (`ast/nameref.rs`): a source-written name plus
its computed type, initialised to `Unknown`. -/
structure NameRef where
  name : String
  typ : Ty
  deriving DecidableEq, Repr

/-- A function argument declaration (`ast/function.rs`): name, type,
mutability. -/
structure Argument where
  name : String
  typ : Ty
  mutable1 : Bool
  deriving DecidableEq, Repr

/-- A function signature (`ast/function.rs`): name, return type, arguments,
and the computed `Func` type. -/
structure FunctionSignature where
  name : String
  returnType : Ty
  args : List Argument
  typ : Ty
  deriving DecidableEq, Repr

/-- A struct pattern (`ast/matchexpression.rs`): the struct or sum-case name,
the field bindings, and the computed member types and pattern type. -/
structure StructPattern where
  name : String
  bindings : List String
  types : List Ty
  typ : Ty
  deriving DecidableEq, Repr

/-- A struct-destructuring binding (`ast/letexpression.rs`): field bindings
plus computed member types and struct type. -/
structure StructBindingData where
  bindings : List String
  types : List Ty
  typ : Ty
  deriving DecidableEq, Repr

/-- Embeds `BindingType` (`ast/letexpression.rs`): a `let` binds either a plain name
or a struct destructuring. -/
inductive BindingKind where
  | name (n : String)
  | struct1 (s : StructBindingData)
  deriving DecidableEq, Repr

/-- A named field access on a struct: the field name plus the resolved member
index. -/
structure FieldAccess where
  name : String
  index : Nat
  deriving DecidableEq, Repr

/-- Modelled from the spec: the fixed properties of arrays and strings,
`.length` and `.data` (§4.4). -/
inductive PropertyKind where
  | len
  | data
  deriving DecidableEq, Repr

mutual
/-- The `Expression` AST (`ast/expression.rs`), with exactly the variants
dispatched by `type_check_expression`.  Spans are omitted (they only feed
diagnostics); the computed-type field of every node is carried in the
constructor. -/
inductive Expression where
  | unaryOp (op : Operator) (expression : Expression) (typ : Ty)
  | binaryOp (op : Operator) (left : Expression) (right : Expression) (typ : Ty)
  | literal (lit : Literal)
  | call (c : CallNode)
  | nameRef (nr : NameRef)
  | matchExpr (target : Expression) (cases : List MatchCase) (typ : Ty)
  | lambda (sig : FunctionSignature) (expr : Expression)
  | bindingExpr (bindings : List Binding) (expression : Expression) (typ : Ty)
  | bindings (bs : List Binding)
  | ifExpr (condition : Expression) (onTrue : Expression) (onFalse : Option Expression) (typ : Ty)
  | block (expressions : List Expression) (typ : Ty)
  | structInitializer (structName : String) (memberInitializers : List Expression)
      (genericArgs : List (String × Ty)) (typ : Ty)
  | memberAccess (left : Expression) (right : MemberAccessType) (typ : Ty)
  | newExpr (inner : Expression) (typ : Ty)
  | deleteExpr (inner : Expression)
  | arrayToSlice (inner : Expression) (sliceTyp : Ty)
  | addressOf (inner : Expression) (typ : Ty)
  | assign (left : Expression) (right : Expression) (typ : Ty)
  | whileLoop (cond : Expression) (body : Expression)
  | forLoop (loopVariable : String) (loopVariableType : Ty) (iterable : Expression)
      (body : Expression)
  | voidExpr
  | nilExpr
  | toOptional (inner : Expression) (optionalTyp : Ty)
  | cast (inner : Expression) (destinationType : Ty)

/-- Literals (`ast/*.rs`): primitives and array literals; an array literal
carries its computed array type. -/
inductive Literal where
  | intLit (v : Int)
  | uintLit (v : Nat)
  | floatLit (v : String)
  | boolLit (v : Bool)
  | charLit (v : Char)
  | stringLit (v : String)
  | arrayLit (elements : List Expression) (arrayTyp : Ty)

/-- A call node (`ast/call.rs`): callee name reference, arguments, inferred
generic substitution, computed return type. -/
inductive CallNode where
  | mk (callee : NameRef) (args : List Expression) (genericArgs : List (String × Ty))
      (returnType : Ty)

/-- One case of a match expression: a pattern and the body to execute. -/
inductive MatchCase where
  | mk (pattern : Pattern) (toExecute : Expression)

/-- Patterns of a match case (`ast/matchexpression.rs`). -/
inductive Pattern where
  | emptyArray
  | array (head : String) (tail : String)
  | name (nr : NameRef)
  | literal (lit : Literal)
  | struct1 (p : StructPattern)
  | any
  | nilPattern
  | optional (binding : String) (innerType : Ty)

/-- The right-hand side of a member access: a named field, a method call, or
a resolved fixed property of arrays/strings. -/
inductive MemberAccessType where
  | name (field : FieldAccess)
  | call (c : CallNode)
  | property (p : PropertyKind)

/-- A single `let`-binding: its kind, initializer, computed type and
mutability. -/
inductive Binding where
  | mk (bindingKind : BindingKind) (init : Expression) (typ : Ty) (mutable1 : Bool)
end

/-- The pattern of a match case. -/
def MatchCase.pattern : MatchCase → Pattern
  | .mk p _ => p

/-- The body of a match case. -/
def MatchCase.toExecute : MatchCase → Expression
  | .mk _ e => e

/-- Modelled from the spec: `Literal::get_type` — the type of a literal; an
array literal reports its computed array type. -/
def Literal.getType : Literal → Ty
  | .intLit _ => .int
  | .uintLit _ => .uint
  | .floatLit _ => .float
  | .boolLit _ => .bool
  | .charLit _ => .char
  | .stringLit _ => .string
  | .arrayLit _ t => t

/-- Modelled from the spec: `Expression::get_type` — the computed-type field
of a node (invariant (a) of §3: every AST expression carries a `typ`
field). -/
def Expression.getType : Expression → Ty
  | .unaryOp _ _ t => t
  | .binaryOp _ _ _ t => t
  | .literal lit => lit.getType
  | .call (.mk _ _ _ rt) => rt
  | .nameRef nr => nr.typ
  | .matchExpr _ _ t => t
  | .lambda sig _ => sig.typ
  | .bindingExpr _ _ t => t
  | .bindings _ => .void
  | .ifExpr _ _ _ t => t
  | .block _ t => t
  | .structInitializer _ _ _ t => t
  | .memberAccess _ _ t => t
  | .newExpr _ t => t
  | .deleteExpr _ => .void
  | .arrayToSlice _ t => t
  | .addressOf _ t => t
  | .assign _ _ t => t
  | .whileLoop _ _ => .void
  | .forLoop _ _ _ _ => .void
  | .voidExpr => .void
  | .nilExpr => .nil
  | .toOptional _ t => t
  | .cast _ t => t

/-- Embeds `address_of` constructor (`ast/expression.rs`): `&e` with its pointer
type left to be computed. -/
def addressOf (e : Expression) : Expression :=
  Expression.addressOf e Ty.unknown

/-- Modelled from the spec: `Type::convert(src, expr)` — if a conversion from
`src` to the receiver `dst` exists, produce the wrapper AST node (`ToOptional`
for `T → Optional(T)`, `ArrayToSlice` for `Array(T,n) → Slice(T)`); return
none otherwise (§4.1, §6). -/
def Ty.convert (dst src : Ty) (e : Expression) : Option Expression :=
  if dst = Ty.optional src then some (Expression.toOptional e dst)
  else
    match dst, src with
    | .slice t, .array et _ => if t = et then some (Expression.arrayToSlice e dst) else none
    | _, _ => none

/-- A generic substitution: a finite map from generic parameter name to
type.  This is the `generic_args` carried by call nodes. -/
abbrev GenericMap := List (String × Ty)

mutual
/-- Modelled from the spec: `make_concrete(subst, t)` — substitutes every
`Generic(name)` in `t` by `subst[name]`; if a name is missing the result
itself remains generic, which is not an error at this stage (§4.3). -/
def makeConcrete (subst : GenericMap) : Ty → Ty
  | .genericAny name =>
      match subst.lookup name with
      | some t => t
      | none => .genericAny name
  | .pointer t => .pointer (makeConcrete subst t)
  | .array t n => .array (makeConcrete subst t) n
  | .slice t => .slice (makeConcrete subst t)
  | .optional t => .optional (makeConcrete subst t)
  | .struct1 n ms => .struct1 n (makeConcreteMembers subst ms)
  | .sum n cs => .sum n (makeConcreteMembers subst cs)
  | .func args ret => .func (makeConcreteList subst args) (makeConcrete subst ret)
  | t => t

/-- Embeds `make_concrete` over a member list. -/
def makeConcreteMembers (subst : GenericMap) : MemberList → MemberList
  | .nil => .nil
  | .cons n t rest => .cons n (makeConcrete subst t) (makeConcreteMembers subst rest)

/-- Embeds `make_concrete` over a type list. -/
def makeConcreteList (subst : GenericMap) : TyList → TyList
  | .nil => .nil
  | .cons t rest => .cons (makeConcrete subst t) (makeConcreteList subst rest)
end

mutual
/-- Modelled from the spec: `fill_in_generics(concrete, generic, subst)` — a
deterministic structural walk over the two types in lockstep; reaching a
`Generic(name)` on the generic side records `name ↦ concrete`, and a name
already bound to a different type fails with a `GenericMismatch` error;
recurses into arrays, slices, pointers, optionals, structs, sums and
functions; returns the extended substitution together with its
concretisation of the generic type (§4.3). -/
def fillInGenerics (concrete generic : Ty) (subst : GenericMap) :
    Except CompileError (GenericMap × Ty) :=
  match generic with
  | .genericAny name =>
      match subst.lookup name with
      | some t =>
          if t = concrete then .ok (subst, concrete)
          else .error (.typeError "generic mismatch")
      | none => .ok (subst ++ [(name, concrete)], concrete)
  | .genericRestricted _ => .ok (subst, concrete)
  | .pointer g =>
      match concrete with
      | .pointer c => do
          let (subst1, t) ← fillInGenerics c g subst
          .ok (subst1, .pointer t)
      | _ => .error (.typeError "generic mismatch")
  | .array g n =>
      match concrete with
      | .array c m =>
          if n = m then do
            let (subst1, t) ← fillInGenerics c g subst
            .ok (subst1, .array t n)
          else .error (.typeError "generic mismatch")
      | _ => .error (.typeError "generic mismatch")
  | .slice g =>
      match concrete with
      | .slice c => do
          let (subst1, t) ← fillInGenerics c g subst
          .ok (subst1, .slice t)
      | _ => .error (.typeError "generic mismatch")
  | .optional g =>
      match concrete with
      | .optional c => do
          let (subst1, t) ← fillInGenerics c g subst
          .ok (subst1, .optional t)
      | _ => .error (.typeError "generic mismatch")
  | .struct1 gname gms =>
      match concrete with
      | .struct1 _ cms => do
          let (subst1, ms) ← fillInGenericsMembers cms gms subst
          .ok (subst1, .struct1 gname ms)
      | _ => .error (.typeError "generic mismatch")
  | .sum gname gcs =>
      match concrete with
      | .sum _ ccs => do
          let (subst1, cs) ← fillInGenericsMembers ccs gcs subst
          .ok (subst1, .sum gname cs)
      | _ => .error (.typeError "generic mismatch")
  | .func gargs gret =>
      match concrete with
      | .func cargs cret => do
          let (subst1, args) ← fillInGenericsList cargs gargs subst
          let (subst2, ret) ← fillInGenerics cret gret subst1
          .ok (subst2, .func args ret)
      | _ => .error (.typeError "generic mismatch")
  | g =>
      if concrete = g then .ok (subst, concrete)
      else .error (.typeError "generic mismatch")

/-- Embeds `fill_in_generics` over member lists in lockstep. -/
def fillInGenericsMembers (cms gms : MemberList) (subst : GenericMap) :
    Except CompileError (GenericMap × MemberList) :=
  match cms, gms with
  | .nil, .nil => .ok (subst, .nil)
  | .cons _ ct crest, .cons gn gt grest => do
      let (subst1, t) ← fillInGenerics ct gt subst
      let (subst2, rest) ← fillInGenericsMembers crest grest subst1
      .ok (subst2, .cons gn t rest)
  | _, _ => .error (.typeError "generic mismatch")

/-- Embeds `fill_in_generics` over type lists in lockstep. -/
def fillInGenericsList (cts gts : TyList) (subst : GenericMap) :
    Except CompileError (GenericMap × TyList) :=
  match cts, gts with
  | .nil, .nil => .ok (subst, .nil)
  | .cons ct crest, .cons gt grest => do
      let (subst1, t) ← fillInGenerics ct gt subst
      let (subst2, rest) ← fillInGenericsList crest grest subst1
      .ok (subst2, .cons t rest)
  | _, _ => .error (.typeError "generic mismatch")
end

/-- The result alternatives of a checking function (`TypeCheckAction` in
`typecheck.rs`): either a computed type (together with the rewritten node,
which Rust mutates in place), or a replacement expression that the dispatcher
substitutes for the current node and re-checks. -/
inductive TypeCheckAction where
  | valid (typ : Ty) (e : Expression)
  | replaceBy (e : Expression)

/-- Result of `type_check_expression`: computed type, updated context, and the
rewritten expression. -/
abbrev CheckResult := Except CompileError (Ty × Ctx × Expression)

/-- Result of an individual node checker (`TypeCheckResult` in
`typecheck.rs`). -/
abbrev StepResult := Except CompileError (TypeCheckAction × Ctx)

/-- The type of the recursive expression checker, abstracted so that each node
checker can be stated and proved against an arbitrary recursive checker. -/
abbrev Checker := Ctx → Expression → Option Ty → CheckResult

/-- Embeds `convert_type`: succeed if the types are equal; otherwise wrap the
expression by `Type::convert` and re-check the wrapper, asserting that it now
carries the destination type (the `assert_eq!` is modelled by
`internalError`); otherwise fail. -/
def convertType (chk : Checker) (ctx : Ctx) (dstType srcType : Ty) (e : Expression) :
    Except CompileError (Ctx × Expression) :=
  if dstType = srcType then .ok (ctx, e)
  else
    match Ty.convert dstType srcType e with
    | some newExpression => do
        let (t, ctx1, e1) ← chk ctx newExpression none
        if t = dstType then .ok (ctx1, e1) else .error .internalError
    | none => .error (.typeError "type not convertible")

/-- Embeds `type_check_with_conversion`: check the expression with no hint and then
convert its type to the expected one. -/
def typeCheckWithConversion (chk : Checker) (ctx : Ctx) (e : Expression) (expectedType : Ty) :
    Except CompileError (Ctx × Expression) := do
  let (typ, ctx1, e1) ← chk ctx e none
  convertType chk ctx1 expectedType typ e1

/-- Embeds `type_check_unary_op`: a generic operand passes through; `-` requires a
numeric operand, `!` requires bool. -/
def typeCheckUnaryOp (chk : Checker) (ctx : Ctx) (op : Operator) (expr : Expression)
    (typ : Ty) : StepResult := do
  let (eType, ctx1, e1) ← chk ctx expr none
  if eType.isGeneric then
    .ok (.valid eType (.unaryOp op e1 eType), ctx1)
  else
    match op with
    | .sub =>
        if ¬ eType.isNumeric then .error (.typeError "unary operator expects a numeric expression")
        else .ok (.valid eType (.unaryOp op e1 eType), ctx1)
    | .not =>
        if ¬ eType.isBool then .error (.typeError "unary operator expects a boolean expression")
        else .ok (.valid .bool (.unaryOp op e1 .bool), ctx1)
    | _ => .error (.typeError "not a valid unary operator")

/-- Embeds `basic_bin_op_checks`: both operand types must be equal and the operator
must be supported on them. -/
def basicBinOpChecks (op : Operator) (leftType rightType : Ty) :
    Except CompileError Unit :=
  if leftType ≠ rightType then
    .error (.typeError "operator expects operands of the same type")
  else if ¬ leftType.isOperatorSupported op then
    .error (.typeError "operator is not supported on type")
  else .ok ()

/-- Embeds `type_check_binary_op`: check both operands with no hint; a generic
operand short-circuits to the left type.  Arithmetic and comparisons run
`basic_bin_op_checks`; `&&` coerces both sides to bool; `||` is nil-coalescing
when the left type is `Optional(right type)` and otherwise coerces both sides
to bool; `==`/`!=` skip all checks when either side is `Nil`. -/
def typeCheckBinaryOp (chk : Checker) (ctx : Ctx) (op : Operator)
    (left right : Expression) (typ : Ty) : StepResult := do
  let (leftType, ctx1, l1) ← chk ctx left none
  let (rightType, ctx2, r1) ← chk ctx1 right none
  if leftType.isGeneric || rightType.isGeneric then
    .ok (.valid leftType (.binaryOp op l1 r1 typ), ctx2)
  else
    match op with
    | .add | .sub | .mul | .div | .mod => do
        basicBinOpChecks op leftType rightType
        .ok (.valid leftType (.binaryOp op l1 r1 rightType), ctx2)
    | .lessThan | .greaterThan | .lessThanEquals | .greaterThanEquals => do
        basicBinOpChecks op leftType rightType
        .ok (.valid .bool (.binaryOp op l1 r1 .bool), ctx2)
    | .and => do
        let (ctx3, l2) ← typeCheckWithConversion chk ctx2 l1 .bool
        let (ctx4, r2) ← typeCheckWithConversion chk ctx3 r1 .bool
        .ok (.valid .bool (.binaryOp op l2 r2 .bool), ctx4)
    | .or =>
        if leftType.isOptionalOf rightType then
          .ok (.valid rightType (.binaryOp op l1 r1 rightType), ctx2)
        else do
          let (ctx3, l2) ← typeCheckWithConversion chk ctx2 l1 .bool
          let (ctx4, r2) ← typeCheckWithConversion chk ctx3 r1 .bool
          .ok (.valid .bool (.binaryOp op l2 r2 .bool), ctx4)
    | .equals | .notEquals => do
        if leftType ≠ Ty.nil ∧ rightType ≠ Ty.nil then
          basicBinOpChecks op leftType rightType
        else pure ()
        .ok (.valid .bool (.binaryOp op l1 r1 .bool), ctx2)
    | _ => .error (.typeError "operator is not a binary operator")

/-- The element loop of `type_check_array_literal`: all elements must share
one element type, the first element fixing it. -/
def typeCheckArrayElements (chk : Checker) :
    Ctx → Ty → List Expression → Except CompileError (Ty × Ctx × List Expression)
  | ctx, elementType, [] => .ok (elementType, ctx, [])
  | ctx, elementType, e :: rest => do
      let (t, ctx1, e1) ← chk ctx e none
      if elementType = .unknown then do
        let (aet, ctx2, rest1) ← typeCheckArrayElements chk ctx1 t rest
        .ok (aet, ctx2, e1 :: rest1)
      else if elementType ≠ t then
        .error (.typeError "array elements must have the same type")
      else do
        let (aet, ctx2, rest1) ← typeCheckArrayElements chk ctx1 elementType rest
        .ok (aet, ctx2, e1 :: rest1)

/-- Embeds `type_check_array_literal`: an empty literal is typed `Array(Int, 0)`;
otherwise all elements must share one type, and a pre-set array type must
agree with the computed one.  Returns the computed type together with the
updated elements and array-type field. -/
def typeCheckArrayLiteral (chk : Checker) (ctx : Ctx) (elements : List Expression)
    (arrayTyp : Ty) : Except CompileError (Ty × Ctx × List Expression × Ty) :=
  if elements.isEmpty then
    .ok (arrayType .int 0, ctx, elements, arrayType .int 0)
  else do
    let (elementType, ctx1, elements1) ← typeCheckArrayElements chk ctx .unknown elements
    let newArrayType := arrayType elementType elements1.length
    if arrayTyp = .unknown then .ok (newArrayType, ctx1, elements1, newArrayType)
    else if arrayTyp ≠ newArrayType then
      .error (.typeError "array literal type mismatch")
    else .ok (arrayTyp, ctx1, elements1, arrayTyp)

mutual
/-- Embeds `is_instantiation_of`: structural match where a `Generic(_)` on the
generic side matches anything; arrays compare element types only; structs
compare member counts and member types; functions and sums compare in
lockstep. -/
def isInstantiationOf (concreteType genericType : Ty) : Bool :=
  if ¬ genericType.isGeneric then concreteType = genericType
  else
    match concreteType, genericType with
    | .array a _, .array b _ => isInstantiationOf a b
    | _, .genericAny _ => true
    | _, .genericRestricted _ => true
    | .struct1 _ ams, .struct1 _ bms =>
        ams.length = bms.length && isInstantiationOfMembers ams bms
    | .func aargs aret, .func bargs bret =>
        isInstantiationOf aret bret && isInstantiationOfList aargs bargs
    | .sum _ acs, .sum _ bcs => isInstantiationOfMembers acs bcs
    | _, _ => false

/-- Lockstep member comparison (Rust `zip` semantics: the shorter list ends
the walk). -/
def isInstantiationOfMembers : MemberList → MemberList → Bool
  | .cons _ a arest, .cons _ b brest =>
      isInstantiationOf a b && isInstantiationOfMembers arest brest
  | _, _ => true

/-- Lockstep type-list comparison (Rust `zip` semantics). -/
def isInstantiationOfList : TyList → TyList → Bool
  | .cons a arest, .cons b brest =>
      isInstantiationOf a b && isInstantiationOfList arest brest
  | _, _ => true
end

/-- Embeds `type_check_name`: the name `_` is always `Unknown`; an already-determined
non-generic type short-circuits; otherwise the name is resolved in scope and,
with a type hint, checked for equality, convertibility or generic
instantiation. -/
def typeCheckName (ctx : Ctx) (nr : NameRef) (typeHint : Option Ty) :
    Except CompileError (Ty × Ctx × NameRef) :=
  if nr.name = "_" then .ok (.unknown, ctx, nr)
  else if ¬ nr.typ.isUnknown ∧ ¬ nr.typ.isGeneric then .ok (nr.typ, ctx, nr)
  else
    match ctx.resolve nr.name with
    | none => .error (.unknownName "unknown name")
    | some resolved =>
        let nr1 : NameRef := { nr with name := resolved.fullName }
        match typeHint with
        | some typ =>
            if resolved.typ = .unknown then .error (.unknownType nr1.name typ)
            else if resolved.typ = typ then .ok (resolved.typ, ctx, { nr1 with typ := resolved.typ })
            else if ¬ resolved.typ.isGeneric ∧ ¬ typ.isGeneric ∧ ¬ resolved.typ.isConvertible typ then
              .error (.typeError "name type mismatch")
            else if resolved.typ.isGeneric ∧ ¬ typ.isGeneric then
              if ¬ isInstantiationOf typ resolved.typ then
                .error (.typeError "not a valid instantiation")
              else .ok (typ, ctx, { nr1 with typ := typ })
            else .ok (resolved.typ, ctx, { nr1 with typ := resolved.typ })
        | none => .ok (resolved.typ, ctx, { nr1 with typ := resolved.typ })

/-- Embeds `type_check_if`: condition converted to bool; matching branch types pass
through; a missing else requires `Void`; a `Nil` branch lifts the other branch
to `Optional` by converting the expression of that branch. -/
def typeCheckIf (chk : Checker) (ctx : Ctx) (condition onTrue : Expression)
    (onFalse : Option Expression) (typ : Ty) : StepResult := do
  let (ctx1, cond1) ← typeCheckWithConversion chk ctx condition .bool
  let (onTrueType, ctx2, t1) ← chk ctx1 onTrue none
  let (onFalseType, ctx3, f1) ←
    match onFalse with
    | some expr => do
        let (ft, c, fe) ← chk ctx2 expr none
        pure (ft, c, some fe)
    | none => pure (Ty.void, ctx2, (none : Option Expression))
  if onTrueType ≠ onFalseType then
    match f1 with
    | none => .error (.typeError "if expressions without an else part must return void")
    | some fe =>
        if onTrueType = Ty.nil then do
          let ot := optionalType onFalseType
          let (ctx4, f2) ← typeCheckWithConversion chk ctx3 fe ot
          .ok (.valid ot (.ifExpr cond1 t1 (some f2) ot), ctx4)
        else if onFalseType = Ty.nil then do
          let ot := optionalType onTrueType
          let (ctx4, t2) ← typeCheckWithConversion chk ctx3 t1 ot
          .ok (.valid ot (.ifExpr cond1 t2 (some fe) ot), ctx4)
        else .error (.typeError "then and else need to be of the same type")
  else .ok (.valid onFalseType (.ifExpr cond1 t1 f1 onTrueType), ctx3)

/-- Embeds `type_check_cast`: allowed exactly between two distinct members of
`{Int, UInt, Float}`; every other combination is an invalid cast. -/
def typeCheckCast (chk : Checker) (ctx : Ctx) (inner : Expression)
    (destinationType : Ty) : StepResult := do
  let (innerType, ctx1, inner1) ← chk ctx inner none
  match innerType, destinationType with
  | .int, .uint | .int, .float
  | .uint, .int | .uint, .float
  | .float, .int | .float, .uint =>
      .ok (.valid destinationType (.cast inner1 destinationType), ctx1)
  | _, _ => .error (.typeError "cast is not allowed")

/-- The closure `infer_case_type` of `type_check_match`: check the case body
with no hint and require it to agree with the already-fixed return type. -/
def inferCaseType (chk : Checker) (ctx : Ctx) (e : Expression) (returnType : Ty) :
    Except CompileError (Ty × Ctx × Expression) := do
  let (tt, ctx1, e1) ← chk ctx e none
  if returnType ≠ Ty.unknown ∧ returnType ≠ tt then
    .error (.typeError "expressions in match statements must return the same type")
  else .ok (tt, ctx1, e1)

/-- Embeds `type_check_struct_pattern`: resolve the struct or sum-case name and
record the member types in the pattern; a pattern with a known type
short-circuits. -/
def typeCheckStructPattern (ctx : Ctx) (p : StructPattern) :
    Except CompileError (Ty × Ctx × StructPattern) :=
  if ¬ p.typ.isUnknown then .ok (p.typ, ctx, p)
  else
    match ctx.resolve p.name with
    | none => .error (.unknownName "unknown struct")
    | some resolved =>
        let p1 : StructPattern := { p with name := resolved.fullName }
        match resolved.typ with
        | .sum sname cases =>
            match cases.indexOf p1.name with
            | none => .error .internalError
            | some idx =>
                match cases.get idx with
                | none => .error .internalError
                | some (_, caseTyp) =>
                    match caseTyp with
                    | .struct1 _ ms =>
                        if ms.length ≠ p1.bindings.length then
                          .error (.typeError "wrong number of bindings in pattern match")
                        else
                          .ok (.unknown, ctx,
                            { p1 with types := ms.types, typ := .sum sname cases })
                    | _ =>
                        .error (.typeError "attempting to pattern match a normal sum type case with a struct")
        | .struct1 sname ms =>
            .ok (.unknown, ctx, { p1 with types := ms.types, typ := .struct1 sname ms })
        | _ =>
            .error (.typeError "struct pattern is only allowed for structs and sum types")

/-- Declare the non-`_` bindings of a struct pattern or struct binding in the
current scope. -/
def addPatternBindings (ctx : Ctx) : List (String × Ty) → Except CompileError Ctx
  | [] => .ok ctx
  | (binding, typ) :: rest => do
      let ctx1 ← if binding = "_" then pure ctx else ctx.add binding typ false
      addPatternBindings ctx1 rest

/-- One case of `type_check_match`: the pattern dispatch of the source,
checking the pattern against the target type, declaring its bindings, and
checking the body through `infer_case_type`. -/
def typeCheckMatchCase (chk : Checker) (ctx : Ctx) (targetType returnType : Ty) :
    MatchCase → Except CompileError (Ty × Ctx × MatchCase)
  | .mk pattern body =>
    match pattern with
    | .emptyArray =>
        if ¬ targetType.isSequence then
          .error (.typeError "attempting to pattern match a non sequence with an empty array")
        else do
          let (ct, ctx1, body1) ← inferCaseType chk ctx body returnType
          .ok (ct, ctx1, .mk .emptyArray body1)
    | .array head tail =>
        if ¬ targetType.isSequence then
          .error (.typeError "attempting to pattern match a non sequence with an array")
        else do
          let elementType ←
            match targetType.getElementType with
            | some et => pure et
            | none => .error .internalError
          let ctx1 := ctx.pushStack false
          let ctx2 ← ctx1.add head elementType false
          let ctx3 ← ctx2.add tail (sliceType elementType) false
          let (ct, ctx4, body1) ← inferCaseType chk ctx3 body returnType
          .ok (ct, ctx4.popStack, .mk (.array head tail) body1)
    | .name nr => do
        let (_, ctx1, nr1) ← typeCheckName ctx nr (some targetType)
        if nr1.typ ≠ targetType then
          .error (.typeError "cannot pattern match expressions of different types")
        else
          match nr1.typ with
          | .sum _ cases =>
              match cases.indexOf nr1.name with
              | none => .error .internalError
              | some idx =>
                  match cases.get idx with
                  | none => .error .internalError
                  | some (_, caseTyp) =>
                      if caseTyp = Ty.int then do
                        let (ct, ctx2, body1) ← inferCaseType chk ctx1 body returnType
                        .ok (ct, ctx2, .mk (.name nr1) body1)
                      else
                        .error (.typeError "match should be with an empty sum case")
          | .enum _ _ => do
              let (ct, ctx2, body1) ← inferCaseType chk ctx1 body returnType
              .ok (ct, ctx2, .mk (.name nr1) body1)
          | _ => .error (.typeError "invalid pattern match")
    | .literal (.arrayLit elements arrayTyp) => do
        let (mType, ctx1, elements1, arrayTyp1) ← typeCheckArrayLiteral chk ctx elements arrayTyp
        if ¬ targetType.isMatchable mType then
          .error (.typeError "pattern cannot match with an expression of this type")
        else do
          let (ct, ctx2, body1) ← inferCaseType chk ctx1 body returnType
          .ok (ct, ctx2, .mk (.literal (.arrayLit elements1 arrayTyp1)) body1)
    | .literal lit =>
        if ¬ targetType.isMatchable lit.getType then
          .error (.typeError "pattern cannot match with an expression of this type")
        else do
          let (ct, ctx1, body1) ← inferCaseType chk ctx body returnType
          .ok (ct, ctx1, .mk (.literal lit) body1)
    | .struct1 p => do
        let (_, ctx1, p1) ← typeCheckStructPattern ctx p
        if p1.typ ≠ targetType then
          .error (.typeError "cannot pattern match expressions of different types")
        else do
          let ctx2 := ctx1.pushStack false
          let ctx3 ← addPatternBindings ctx2 (p1.bindings.zip p1.types)
          let (ct, ctx4, body1) ← inferCaseType chk ctx3 body returnType
          .ok (ct, ctx4.popStack, .mk (.struct1 p1) body1)
    | .any => do
        let (ct, ctx1, body1) ← inferCaseType chk ctx body returnType
        .ok (ct, ctx1, .mk .any body1)
    | .nilPattern =>
        if ¬ targetType.isOptional then
          .error (.typeError "only optionals can be matched to nil")
        else do
          let (ct, ctx1, body1) ← inferCaseType chk ctx body returnType
          .ok (ct, ctx1, .mk .nilPattern body1)
    | .optional binding _ =>
        if ¬ targetType.isOptional then
          .error (.typeError "cannot match to optional pattern")
        else do
          let innerType ←
            match targetType.getElementType with
            | some et => pure et
            | none => .error .internalError
          let ctx1 := ctx.pushStack false
          let ctx2 ← ctx1.add binding innerType false
          let (ct, ctx3, body1) ← inferCaseType chk ctx2 body returnType
          .ok (ct, ctx3.popStack, .mk (.optional binding innerType) body1)

/-- The case loop of `type_check_match`: fold over the cases, fixing the
return type of the match at the first case whose body type is not `Unknown` and
rejecting any later case whose body type differs. -/
def typeCheckMatchCases (chk : Checker) :
    Ctx → Ty → Ty → List MatchCase → Except CompileError (Ty × Ctx × List MatchCase)
  | ctx, _, returnType, [] => .ok (returnType, ctx, [])
  | ctx, targetType, returnType, c :: rest => do
      let (caseType, ctx1, c1) ← typeCheckMatchCase chk ctx targetType returnType c
      let returnType1 ←
        if returnType = Ty.unknown then pure caseType
        else if returnType ≠ caseType then
          .error (.typeError "cases of match statements must return the same type")
        else pure returnType
      let (finalType, ctx2, rest1) ← typeCheckMatchCases chk ctx1 targetType returnType1 rest
      .ok (finalType, ctx2, c1 :: rest1)

/-- Whether a pattern list contains an `Any` (`_`) pattern. -/
def patternsHaveAny (patterns : List Pattern) : Bool :=
  patterns.any fun p => match p with | .any => true | _ => false

/-- Whether a pattern list contains a `Nil` pattern. -/
def patternsHaveNil (patterns : List Pattern) : Bool :=
  patterns.any fun p => match p with | .nilPattern => true | _ => false

/-- Whether a pattern list contains an `Optional` binding pattern. -/
def patternsHaveOptional (patterns : List Pattern) : Bool :=
  patterns.any fun p => match p with | .optional _ _ => true | _ => false

/-- Whether a pattern list contains an `EmptyArray` pattern. -/
def patternsHaveEmptyArray (patterns : List Pattern) : Bool :=
  patterns.any fun p => match p with | .emptyArray => true | _ => false

/-- Whether a pattern list contains a head/tail `Array` pattern. -/
def patternsHaveArray (patterns : List Pattern) : Bool :=
  patterns.any fun p => match p with | .array _ _ => true | _ => false

/-- Whether a named case is covered by a `Name` or `Struct` pattern. -/
def patternsCoverName (patterns : List Pattern) (name : String) : Bool :=
  patterns.any fun p =>
    match p with
    | .name nr => nr.name = name
    | .struct1 sp => sp.name = name
    | _ => false

/-- Modelled from the spec: `check_match_is_exhaustive` (§4.5) — a sum target
needs every case covered unless an `Any` absorbs the remainder; an optional
target needs both a `Nil` and an `Optional` (or `Any`) pattern; a sequence
target needs both `EmptyArray` and `Array` (or `Any`); an enum target needs
every named case unless `Any` is present; structs and primitives need an
`Any`. -/
def checkMatchIsExhaustive (patterns : List Pattern) (targetType : Ty) :
    Except CompileError Unit :=
  match targetType with
  | .sum _ cases =>
      if patternsHaveAny patterns ||
          (cases.toList.all fun c => patternsCoverName patterns c.1) then .ok ()
      else .error .nonExhaustiveMatch
  | .optional _ =>
      if (patternsHaveNil patterns || patternsHaveAny patterns) &&
          (patternsHaveOptional patterns || patternsHaveAny patterns) then .ok ()
      else .error .nonExhaustiveMatch
  | .array _ _ | .slice _ | .string =>
      if patternsHaveAny patterns ||
          (patternsHaveEmptyArray patterns && patternsHaveArray patterns) then .ok ()
      else .error .nonExhaustiveMatch
  | .enum _ cases =>
      if patternsHaveAny patterns ||
          (cases.all fun c => patternsCoverName patterns c) then .ok ()
      else .error .nonExhaustiveMatch
  | _ =>
      if patternsHaveAny patterns then .ok ()
      else .error .nonExhaustiveMatch

/-- Embeds `type_check_match`: check the target, fold over the cases, record the
common return type on the node, and only then run the exhaustiveness
check. -/
def typeCheckMatch (chk : Checker) (ctx : Ctx) (target : Expression)
    (cases : List MatchCase) (typ : Ty) : StepResult := do
  let (targetType, ctx1, target1) ← chk ctx target none
  let (returnType, ctx2, cases1) ← typeCheckMatchCases chk ctx1 targetType .unknown cases
  match checkMatchIsExhaustive (cases1.map MatchCase.pattern) targetType with
  | .error e => .error e
  | .ok _ => .ok (.valid returnType (.matchExpr target1 cases1 returnType), ctx2)

/-- Modelled from the spec: `get_property_type` — arrays and strings expose
the fixed properties `.length` (a `UInt`) and `.data` (a pointer to the
element type) (§4.4). -/
def Ty.getPropertyType (t : Ty) (name : String) : Option (Ty × MemberAccessType) :=
  match t with
  | .array elementType _ =>
      if name = "length" then some (.uint, .property .len)
      else if name = "data" then some (.pointer elementType, .property .data)
      else none
  | .string =>
      if name = "length" then some (.uint, .property .len)
      else if name = "data" then some (.pointer .char, .property .data)
      else none
  | _ => none

/-- Modelled from the spec: `Lambda::is_generic` — the lambda is generic when
any argument type or the return type is generic (§4.4). -/
def lambdaIsGeneric (sig : FunctionSignature) : Bool :=
  sig.args.any (fun a => a.typ.isGeneric) || sig.returnType.isGeneric

/-- Modelled from the spec: `Lambda::set_return_type` — record the inferred
return type in the signature and recompute the `Func` type of the signature. -/
def lambdaSetReturnType (sig : FunctionSignature) (returnType : Ty) : FunctionSignature :=
  { sig with
    returnType := returnType,
    typ := .func (TyList.ofList (sig.args.map (fun a => a.typ))) returnType }

/-- Modelled from the spec: `Lambda::apply_type` — a `Func` hint with matching
arity fixes the argument types and the return type of the lambda (§4.4). -/
def lambdaApplyType (sig : FunctionSignature) (typ : Ty) :
    Except CompileError FunctionSignature :=
  match typ with
  | .func fargs fret =>
      let fl := fargs.toList
      if fl.length = sig.args.length then
        .ok { sig with
          args := (sig.args.zip fl).map (fun p => { p.1 with typ := p.2 }),
          returnType := fret,
          typ := typ }
      else .error (.typeError "lambda argument count mismatch")
  | _ => .error (.typeError "lambda requires a function type")

/-- Declare the lambda arguments in the current frame (all immutable). -/
def addLambdaArgs (ctx : Ctx) : List Argument → Except CompileError Ctx
  | [] => .ok ctx
  | a :: rest => do
      let ctx1 ← ctx.add a.name a.typ false
      addLambdaArgs ctx1 rest

/-- Embeds `type_check_lambda_body`: push a frame, declare the arguments, check the
body, pop, and record the body type as the return type of the lambda. -/
def typeCheckLambdaBody (chk : Checker) (ctx : Ctx) (sig : FunctionSignature)
    (expr : Expression) : Except CompileError (Ty × Ctx × FunctionSignature × Expression) := do
  let ctx1 := ctx.pushStack false
  let ctx2 ← addLambdaArgs ctx1 sig.args
  let (returnType, ctx3, expr1) ← chk ctx2 expr none
  let sig1 := lambdaSetReturnType sig returnType
  .ok (sig1.typ, ctx3.popStack, sig1, expr1)

/-- Embeds `type_check_lambda`: with a type hint the lambda gets a fresh generated
name (the UUID of the source is modelled by a fixed placeholder), the hint is
applied to the signature and the body type must equal the hint; without a
hint a generic lambda is postponed as `Unknown`, otherwise the body is
checked as-is. -/
def typeCheckLambda (chk : Checker) (ctx : Ctx) (sig : FunctionSignature)
    (expr : Expression) (typeHint : Option Ty) : StepResult :=
  match typeHint with
  | some typ => do
      let sig0 : FunctionSignature := { sig with name := "lambda-generated" }
      let sig1 ← lambdaApplyType sig0 typ
      let (inferedType, ctx1, sig2, expr1) ← typeCheckLambdaBody chk ctx sig1 expr
      if inferedType ≠ typ then .error (.typeError "lambda body has the wrong type")
      else .ok (.valid inferedType (.lambda sig2 expr1), ctx1)
  | none =>
      if lambdaIsGeneric sig then .ok (.valid .unknown (.lambda sig expr), ctx)
      else do
        let (t, ctx1, sig1, expr1) ← typeCheckLambdaBody chk ctx sig expr
        .ok (.valid t (.lambda sig1 expr1), ctx1)

/-- Embeds `type_check_binding`: check the initializer, then declare a plain name or
destructure a struct, declaring each non-`_` field binding. -/
def typeCheckBinding (chk : Checker) (ctx : Ctx) : Binding → Except CompileError (Ty × Ctx × Binding)
  | .mk bindingKind init _ mutable1 => do
      let (btyp, ctx1, init1) ← chk ctx init none
      match bindingKind with
      | .name n => do
          let ctx2 ← ctx1.add n btyp mutable1
          .ok (btyp, ctx2, .mk bindingKind init1 btyp mutable1)
      | .struct1 s =>
          let s1 : StructBindingData := { s with typ := btyp }
          match s1.typ with
          | .struct1 _ ms =>
              if ms.length ≠ s1.bindings.length then
                .error (.typeError "wrong number of members in struct binding")
              else do
                let s2 : StructBindingData := { s1 with types := ms.types }
                let ctx2 ← addPatternBindings ctx1 (s2.bindings.zip s2.types)
                .ok (btyp, ctx2, .mk (.struct1 s2) init1 btyp mutable1)
          | _ => .error (.typeError "expression does not return a struct type")

/-- The binding loop shared by `Bindings` and `BindingExpression` nodes. -/
def typeCheckBindingList (chk : Checker) :
    Ctx → List Binding → Except CompileError (Ctx × List Binding)
  | ctx, [] => .ok (ctx, [])
  | ctx, b :: rest => do
      let (_, ctx1, b1) ← typeCheckBinding chk ctx b
      let (ctx2, rest1) ← typeCheckBindingList chk ctx1 rest
      .ok (ctx2, b1 :: rest1)

/-- Embeds `update_binding_type`: find the named plain binding, re-check its
initializer with the expected type as hint, update the scope entry, and
re-check the body. -/
def updateBindingType (chk : Checker) (ctx : Ctx) (name : String) (expectedType : Ty) :
    List Binding → Expression →
    Except CompileError (Ctx × List Binding × Expression × Ty)
  | [], _ => .error (.typeError "cannot update the type of binding")
  | .mk (.name bn) init btyp bmut :: rest, body =>
      if bn = name then do
        let (t, ctx1, init1) ← chk ctx init (some expectedType)
        let ctx2 := ctx1.update bn t bmut
        let (ltyp, ctx3, body1) ← chk ctx2 body none
        .ok (ctx3, .mk (.name bn) init1 t bmut :: rest, body1, ltyp)
      else do
        let (ctx1, rest1, body1, ltyp) ← updateBindingType chk ctx name expectedType rest body
        .ok (ctx1, .mk (.name bn) init btyp bmut :: rest1, body1, ltyp)
  | b :: rest, body => do
      let (ctx1, rest1, body1, ltyp) ← updateBindingType chk ctx name expectedType rest body
      .ok (ctx1, b :: rest1, body1, ltyp)

/-- Embeds `type_check_binding_expression`: push a frame, check the bindings, check
the body; the distinguished `UnknownType` error triggers the one retry with a
type hint through `update_binding_type`. -/
def typeCheckBindingExpression (chk : Checker) (ctx : Ctx) (bindings : List Binding)
    (expression : Expression) (typ : Ty) : StepResult := do
  let ctx1 := ctx.pushStack false
  let (ctx2, bindings1) ← typeCheckBindingList chk ctx1 bindings
  match chk ctx2 expression none with
  | .error (.unknownType name expectedType) => do
      let (ctx3, bindings2, expr1, ltyp) ←
        updateBindingType chk ctx2 name expectedType bindings1 expression
      .ok (.valid ltyp (.bindingExpr bindings2 expr1 ltyp), ctx3.popStack)
  | .error e => .error e
  | .ok (ltyp, ctx3, expr1) =>
      .ok (.valid ltyp (.bindingExpr bindings1 expr1 ltyp), ctx3.popStack)

/-- One pass of `resolve_generic_args_in_call`: check every argument with the
concretised expected type as hint and unify its type back into the
substitution. -/
def resolveGenericArgsPass (chk : Checker) :
    Ctx → GenericMap → List Ty → List Expression →
    Except CompileError (List Ty × GenericMap × Ctx × List Expression)
  | ctx, genericArgs, [], _ => .ok ([], genericArgs, ctx, [])
  | ctx, genericArgs, _, [] => .ok ([], genericArgs, ctx, [])
  | ctx, genericArgs, expectedArgType0 :: ftRest, arg :: argRest => do
      let expectedArgType := makeConcrete genericArgs expectedArgType0
      let (argType0, ctx1, arg1) ← chk ctx arg (some expectedArgType)
      let argType := makeConcrete genericArgs argType0
      let genericArgs1 ←
        if expectedArgType.isGeneric then do
          let (g, _) ← fillInGenerics argType expectedArgType genericArgs
          pure g
        else pure genericArgs
      let (argTypes, genericArgs2, ctx2, args2) ←
        resolveGenericArgsPass chk ctx1 genericArgs1 ftRest argRest
      .ok (argType :: argTypes, genericArgs2, ctx2, arg1 :: args2)

/-- Embeds `resolve_generic_args_in_call`: a fixed point over arguments — repeat the
pass until the substitution stops growing.  The fuel bounds the iteration in
this embedding. -/
def resolveGenericArgsInCall (chk : Checker) :
    Nat → Ctx → GenericMap → List Ty → List Expression →
    Except CompileError (List Ty × GenericMap × Ctx × List Expression)
  | 0, _, _, _, _ => .error .outOfFuel
  | fuel + 1, ctx, genericArgs, ftArgs, args => do
      let count := genericArgs.length
      let (argTypes, genericArgs1, ctx1, args1) ←
        resolveGenericArgsPass chk ctx genericArgs ftArgs args
      if genericArgs1.length = count then .ok (argTypes, genericArgs1, ctx1, args1)
      else resolveGenericArgsInCall chk fuel ctx1 genericArgs1 ftArgs args1

/-- The argument conversion loop of `type_check_call`: concretise each
parameter type and convert the argument to it. -/
def convertCallArgs (chk : Checker) :
    Ctx → GenericMap → List Ty → List Ty → List Expression →
    Except CompileError (Ctx × List Expression)
  | ctx, _, _, _, [] => .ok (ctx, [])
  | ctx, genericArgs, ft :: ftRest, argType :: atRest, arg :: argRest => do
      let expectedArgType := makeConcrete genericArgs ft
      let (ctx1, arg1) ← convertType chk ctx expectedArgType argType arg
      let (ctx2, rest) ← convertCallArgs chk ctx1 genericArgs ftRest atRest argRest
      .ok (ctx2, arg1 :: rest)
  | _, _, _, _, _ => .error .internalError

/-- Embeds `type_check_call`: resolve the callee to a function type, check the
argument count, resolve generic arguments to a fixed point, convert each
argument to its concretised parameter type, and return the (concretised)
return type. -/
def typeCheckCall (chk : Checker) (fuel : Nat) (ctx : Ctx) : CallNode → StepResult
  | .mk callee args genericArgs _ => do
      let resolved ←
        match ctx.resolve callee.name with
        | some r => pure r
        | none => .error (.unknownName "unknown call")
      let callee1 : NameRef := { callee with name := resolved.fullName }
      match resolved.typ with
      | .func ftArgs ftReturnType =>
          let ftList := ftArgs.toList
          if ftList.length ≠ args.length then
            .error (.typeError "wrong number of call arguments")
          else do
            let (argTypes, genericArgs1, ctx1, args1) ←
              resolveGenericArgsInCall chk fuel ctx genericArgs ftList args
            let (ctx2, args2) ← convertCallArgs chk ctx1 genericArgs1 ftList argTypes args1
            if ftReturnType.isGeneric then
              let rt := makeConcrete genericArgs1 ftReturnType
              .ok (.valid rt (.call (.mk callee1 args2 genericArgs1 rt)), ctx2)
            else
              .ok (.valid ftReturnType (.call (.mk callee1 args2 genericArgs1 ftReturnType)), ctx2)
      | _ => .error (.typeError "callee is not callable")

/-- The member loop of `type_check_struct_members_in_initializer`: check each
initializer with the declared member type as hint, filling generic parameters
from the actuals. -/
def typeCheckStructMembersLoop (chk : Checker) :
    Ctx → GenericMap → List (String × Ty) → List Expression →
    Except CompileError (Ctx × GenericMap × List Expression × MemberList)
  | ctx, genericArgs, [], _ => .ok (ctx, genericArgs, [], .nil)
  | ctx, genericArgs, _, [] => .ok (ctx, genericArgs, [], .nil)
  | ctx, genericArgs, (mname, mtyp) :: mrest, mi :: irest => do
      let (t, ctx1, mi1) ← chk ctx mi (some mtyp)
      let (genericArgs1, expectedType) ←
        if mtyp.isGeneric then fillInGenerics t mtyp genericArgs
        else pure (genericArgs, mtyp)
      if t ≠ expectedType then
        .error (.typeError "attempting to initialize member with wrong type")
      else do
        let (ctx2, genericArgs2, irest1, mrest1) ←
          typeCheckStructMembersLoop chk ctx1 genericArgs1 mrest irest
        .ok (ctx2, genericArgs2, mi1 :: irest1, .cons mname t mrest1)

/-- Embeds `type_check_struct_members_in_initializer`: member counts must match; the
result is the struct type rebuilt with the checked member types. -/
def typeCheckStructMembersInInitializer (chk : Checker) (ctx : Ctx) (stName : String)
    (stMembers : MemberList) (inits : List Expression) (genericArgs : GenericMap) :
    Except CompileError (Ty × Ctx × List Expression × GenericMap) :=
  if stMembers.length ≠ inits.length then
    .error (.typeError "wrong number of members in initializer")
  else do
    let (ctx1, genericArgs1, inits1, newMembers) ←
      typeCheckStructMembersLoop chk ctx genericArgs stMembers.toList inits
    .ok (.struct1 stName newMembers, ctx1, inits1, genericArgs1)

/-- Embeds `type_check_anonymous_struct_initializer`: each member checked with no
hint; the result is an anonymous struct. -/
def typeCheckAnonymousStructMembers (chk : Checker) :
    Ctx → List Expression → Except CompileError (Ctx × List Expression × MemberList)
  | ctx, [] => .ok (ctx, [], .nil)
  | ctx, mi :: rest => do
      let (t, ctx1, mi1) ← chk ctx mi none
      let (ctx2, rest1, ms) ← typeCheckAnonymousStructMembers chk ctx1 rest
      .ok (ctx2, mi1 :: rest1, .cons "" t ms)

/-- The sum-case rebuild loop of `type_check_struct_initializer`: the matched
case is checked as a struct initializer (or kept as `Int` for a payload-less
case); the others are cloned. -/
def typeCheckSumCasesLoop (chk : Checker) :
    Ctx → GenericMap → Nat → Nat → MemberList → List Expression →
    Except CompileError (Ctx × GenericMap × List Expression × MemberList)
  | ctx, genericArgs, _, _, .nil, inits => .ok (ctx, genericArgs, inits, .nil)
  | ctx, genericArgs, i, idx, .cons cname ctyp rest, inits =>
      if i = idx then
        match ctyp with
        | .struct1 sn ms => do
            let (t, ctx1, inits1, genericArgs1) ←
              typeCheckStructMembersInInitializer chk ctx sn ms inits genericArgs
            let (ctx2, genericArgs2, inits2, rest1) ←
              typeCheckSumCasesLoop chk ctx1 genericArgs1 (i + 1) idx rest inits1
            .ok (ctx2, genericArgs2, inits2, .cons cname t rest1)
        | .int => do
            let (ctx1, genericArgs1, inits1, rest1) ←
              typeCheckSumCasesLoop chk ctx genericArgs (i + 1) idx rest inits
            .ok (ctx1, genericArgs1, inits1, .cons cname .int rest1)
        | _ => .error (.typeError "invalid sum type case")
      else do
        let (ctx1, genericArgs1, inits1, rest1) ←
          typeCheckSumCasesLoop chk ctx genericArgs (i + 1) idx rest inits
        .ok (ctx1, genericArgs1, inits1, .cons cname ctyp rest1)

/-- Embeds `type_check_struct_initializer`: the anonymous form builds an anonymous
struct; the named form resolves a struct or a sum case and checks the
initializers against the declared members. -/
def typeCheckStructInitializer (chk : Checker) (ctx : Ctx) (structName : String)
    (inits : List Expression) (genericArgs : GenericMap) (typ : Ty) : StepResult :=
  if structName = "" then do
    let (ctx1, inits1, ms) ← typeCheckAnonymousStructMembers chk ctx inits
    let t : Ty := .struct1 "" ms
    .ok (.valid t (.structInitializer structName inits1 genericArgs t), ctx1)
  else do
    let resolved ←
      match ctx.resolve structName with
      | some r => pure r
      | none => .error (.unknownName "unknown struct")
    let structName1 := resolved.fullName
    match resolved.typ with
    | .struct1 sn ms => do
        let (t, ctx1, inits1, genericArgs1) ←
          typeCheckStructMembersInInitializer chk ctx sn ms inits genericArgs
        .ok (.valid t (.structInitializer structName1 inits1 genericArgs1 t), ctx1)
    | .sum sumName cases =>
        match cases.indexOf structName1 with
        | none => .error .internalError
        | some idx => do
            let (ctx1, genericArgs1, inits1, newCases) ←
              typeCheckSumCasesLoop chk ctx genericArgs 0 idx cases inits
            let t : Ty := .sum sumName newCases
            .ok (.valid t (.structInitializer structName1 inits1 genericArgs1 t), ctx1)
    | _ => .error (.typeError "name is not a struct")

/-- Embeds `member_call_to_call`: desugar `obj.f(args)` into a plain call whose
first argument is `&obj` (or `obj` when it is already a pointer). -/
def memberCallToCall (left : Expression) : CallNode → Expression
  | .mk callee args _ _ =>
      let firstArg :=
        match left.getType with
        | .pointer _ => left
        | _ => addressOf left
      Expression.call (.mk callee (firstArg :: args) [] .unknown)

/-- Return type of the named function of an interface signature list. -/
def SigList.lookupReturn : SigList → String → Option Ty
  | .nil, _ => none
  | .cons n _ rt rest, name => if n = name then some rt else rest.lookupReturn name

/-- The interface lookup of `type_check_generic_member_call`. -/
def checkInterface (interface : Ty) (calleeName : String) : Option Ty :=
  match interface with
  | .interface _ functions => functions.lookupReturn calleeName
  | _ => none

/-- The scan over the interfaces of a restricted generic. -/
def findInterfaceReturn (interfaces : TyList) (calleeName : String) : Option Ty :=
  match interfaces with
  | .nil => none
  | .cons i rest =>
      match checkInterface i calleeName with
      | some t => some t
      | none => findInterfaceReturn rest calleeName

/-- Embeds `type_check_generic_member_call`: look the method up among the
interface(s) of the generic bound and record its return type on the call. -/
def typeCheckGenericMemberCall (ctx : Ctx) (c : CallNode) (gt : Ty) :
    Except CompileError (Ty × Ctx × CallNode) :=
  match c with
  | .mk callee args genericArgs _ =>
      match gt with
      | .genericAny name => do
          let interface ←
            match ctx.resolve name with
            | some r => pure r
            | none => .error (.typeError "type is not an interface")
          match checkInterface interface.typ callee.name with
          | some rt => .ok (rt, ctx, .mk callee args genericArgs rt)
          | none => .error (.typeError "interface has no such member function")
      | .genericRestricted interfaces =>
          match findInterfaceReturn interfaces callee.name with
          | some rt => .ok (rt, ctx, .mk callee args genericArgs rt)
          | none => .error (.typeError "no member function with this name")
      | _ => .error .internalError

/-- Embeds `type_check_member_access`: peel one pointer level; a field access on a
struct resolves to an index, on arrays/strings to a fixed property; a method
call on a struct or sum is desugared through `member_call_to_call` into a
replacement `Call`; a method call on a generic bound goes through the
interface lookup. -/
def typeCheckMemberAccess (chk : Checker) (ctx : Ctx) (left : Expression)
    (right : MemberAccessType) (typ : Ty) : StepResult := do
  let (leftType, ctx1, left1) ← chk ctx left none
  let leftTypeRef :=
    match leftType with
    | .pointer inner => inner
    | t => t
  match right, leftTypeRef with
  | .name field, .struct1 _ ms =>
      match ms.findWithIndex field.name with
      | none => .error (.unknownName "unknown struct member")
      | some (memberIdx, memberType) =>
          .ok (.valid memberType
            (.memberAccess left1 (.name ⟨field.name, memberIdx⟩) memberType), ctx1)
  | .name field, .array _ _ | .name field, .string =>
      match leftType.getPropertyType field.name with
      | some (t, newRight) =>
          .ok (.valid t (.memberAccess left1 newRight t), ctx1)
      | none => .error (.typeError "type has no property with this name")
  | .call (.mk callee args genericArgs rt), .struct1 sn _ =>
      let c1 : CallNode := .mk { callee with name := sn ++ "." ++ callee.name } args genericArgs rt
      .ok (.replaceBy (memberCallToCall left1 c1), ctx1)
  | .call (.mk callee args genericArgs rt), .sum sn _ =>
      let c1 : CallNode := .mk { callee with name := sn ++ "." ++ callee.name } args genericArgs rt
      .ok (.replaceBy (memberCallToCall left1 c1), ctx1)
  | .call c, .genericAny gname => do
      let (t, ctx2, c1) ← typeCheckGenericMemberCall ctx1 c (.genericAny gname)
      .ok (.valid t (.memberAccess left1 (.call c1) t), ctx2)
  | .call c, .genericRestricted interfaces => do
      let (t, ctx2, c1) ← typeCheckGenericMemberCall ctx1 c (.genericRestricted interfaces)
      .ok (.valid t (.memberAccess left1 (.call c1) t), ctx2)
  | _, _ => .error (.typeError "cannot determine type of member access")

/-- The expression loop of `type_check_block`: every expression is checked
with the hint of the caller and the last one fixes the block type. -/
def typeCheckBlockLoop (chk : Checker) (typeHint : Option Ty) :
    Ctx → Ty → List Expression → Except CompileError (Ctx × List Expression × Ty)
  | ctx, blockType, [] => .ok (ctx, [], blockType)
  | ctx, blockType, e :: rest => do
      let (t, ctx1, e1) ← chk ctx e typeHint
      let blockType1 := if rest.isEmpty then t else blockType
      let (ctx2, rest1, blockType2) ← typeCheckBlockLoop chk typeHint ctx1 blockType1 rest
      .ok (ctx2, e1 :: rest1, blockType2)

/-- Embeds `type_check_block`: push a frame, check every expression, pop. -/
def typeCheckBlock (chk : Checker) (ctx : Ctx) (expressions : List Expression)
    (typ : Ty) (typeHint : Option Ty) : StepResult := do
  let ctx1 := ctx.pushStack false
  let (ctx2, expressions1, blockType) ← typeCheckBlockLoop chk typeHint ctx1 typ expressions
  .ok (.valid blockType (.block expressions1 blockType), ctx2.popStack)

/-- Embeds `type_check_assign`: the left side must be a mutable name reference; the
right side is converted to the left type; the result is `Void`. -/
def typeCheckAssign (chk : Checker) (ctx : Ctx) (left right : Expression)
    (typ : Ty) : StepResult := do
  let (leftType, ctx1, left1) ← chk ctx left none
  match left1 with
  | .nameRef nr =>
      if ¬ (((ctx1.resolve nr.name).map (fun rn => rn.mutable1)).getD false) then
        .error (.typeError "attempting to modify a name which is not mutable")
      else do
        let (ctx2, right1) ← typeCheckWithConversion chk ctx1 right leftType
        .ok (.valid .void (.assign left1 right1 .void), ctx2)
  | _ => .error (.typeError "attempting to modify a non mutable expression")

/-- Embeds `type_check_while`: condition converted to bool, body checked with its
type ignored. -/
def typeCheckWhile (chk : Checker) (ctx : Ctx) (cond body : Expression) : StepResult := do
  let (ctx1, cond1) ← typeCheckWithConversion chk ctx cond .bool
  let (_, ctx2, body1) ← chk ctx1 body none
  .ok (.valid .void (.whileLoop cond1 body1), ctx2)

/-- Embeds `type_check_for`: the iterable must be a string, array or slice; the loop
variable is declared with the element type for the body (the source pushes a
frame and does not pop it). -/
def typeCheckFor (chk : Checker) (ctx : Ctx) (loopVariable : String)
    (loopVariableType : Ty) (iterable body : Expression) : StepResult := do
  let (typ, ctx1, iterable1) ← chk ctx iterable none
  match typ with
  | .string | .array _ _ | .slice _ => do
      let ctx2 := ctx1.pushStack false
      let elementType ←
        match typ.getElementType with
        | some et => pure et
        | none => .error (.typeError "cannot determine type of loop variable")
      let ctx3 ← ctx2.add loopVariable elementType false
      let (_, ctx4, body1) ← chk ctx3 body none
      .ok (.valid .void (.forLoop loopVariable elementType iterable1 body1), ctx4)
  | _ => .error (.typeError "cannot iterate over expressions of this type")

/-- Embeds `type_check_expression`: the dispatcher over all AST variants.  A
`ReplaceBy` result overwrites the current node and re-checks it.  The fuel
decreases on every recursive call. -/
def typeCheckExpression : Nat → Ctx → Expression → Option Ty → CheckResult
  | 0, _, _, _ => .error .outOfFuel
  | fuel + 1, ctx, e, typeHint =>
      let chk : Checker := typeCheckExpression fuel
      let step : StepResult :=
        match e with
        | .unaryOp op expr typ => typeCheckUnaryOp chk ctx op expr typ
        | .binaryOp op left right typ => typeCheckBinaryOp chk ctx op left right typ
        | .literal (.arrayLit elements arrayTyp) =>
            match typeCheckArrayLiteral chk ctx elements arrayTyp with
            | .ok (t, ctx1, elements1, arrayTyp1) =>
                .ok (.valid t (.literal (.arrayLit elements1 arrayTyp1)), ctx1)
            | .error err => .error err
        | .literal lit => .ok (.valid lit.getType (.literal lit), ctx)
        | .call c => typeCheckCall chk fuel ctx c
        | .nameRef nr =>
            match typeCheckName ctx nr typeHint with
            | .ok (t, ctx1, nr1) => .ok (.valid t (.nameRef nr1), ctx1)
            | .error err => .error err
        | .matchExpr target cases typ => typeCheckMatch chk ctx target cases typ
        | .lambda sig expr => typeCheckLambda chk ctx sig expr typeHint
        | .bindingExpr bindings expression typ =>
            typeCheckBindingExpression chk ctx bindings expression typ
        | .bindings bs =>
            match typeCheckBindingList chk ctx bs with
            | .ok (ctx1, bs1) => .ok (.valid .void (.bindings bs1), ctx1)
            | .error err => .error err
        | .ifExpr condition onTrue onFalse typ =>
            typeCheckIf chk ctx condition onTrue onFalse typ
        | .block expressions typ => typeCheckBlock chk ctx expressions typ typeHint
        | .structInitializer structName inits genericArgs typ =>
            typeCheckStructInitializer chk ctx structName inits genericArgs typ
        | .memberAccess left right typ => typeCheckMemberAccess chk ctx left right typ
        | .newExpr inner _ =>
            match chk ctx inner typeHint with
            | .ok (t, ctx1, inner1) =>
                .ok (.valid (ptrType t) (.newExpr inner1 (ptrType t)), ctx1)
            | .error err => .error err
        | .deleteExpr inner =>
            match chk ctx inner typeHint with
            | .ok (t, ctx1, inner1) =>
                match t with
                | .pointer _ => .ok (.valid .void (.deleteExpr inner1), ctx1)
                | _ => .error (.typeError "delete expression expects a pointer argument")
            | .error err => .error err
        | .arrayToSlice inner _ =>
            match chk ctx inner typeHint with
            | .ok (t, ctx1, inner1) =>
                match t with
                | .array et _ =>
                    .ok (.valid (sliceType et) (.arrayToSlice inner1 (sliceType et)), ctx1)
                | _ => .error (.typeError "array to slice expression must have an array as input")
            | .error err => .error err
        | .addressOf inner _ =>
            match chk ctx inner typeHint with
            | .ok (t, ctx1, inner1) =>
                .ok (.valid (ptrType t) (.addressOf inner1 (ptrType t)), ctx1)
            | .error err => .error err
        | .assign left right typ => typeCheckAssign chk ctx left right typ
        | .whileLoop cond body => typeCheckWhile chk ctx cond body
        | .forLoop loopVariable loopVariableType iterable body =>
            typeCheckFor chk ctx loopVariable loopVariableType iterable body
        | .voidExpr => .ok (.valid .void .voidExpr, ctx)
        | .nilExpr => .ok (.valid .nil .nilExpr, ctx)
        | .toOptional inner optionalTyp =>
            match chk ctx inner none with
            | .ok (_, ctx1, inner1) =>
                .ok (.valid optionalTyp (.toOptional inner1 optionalTyp), ctx1)
            | .error err => .error err
        | .cast inner destinationType => typeCheckCast chk ctx inner destinationType
      match step with
      | .ok (.valid t e1, ctx1) => .ok (t, ctx1, e1)
      | .ok (.replaceBy newExpression, ctx1) =>
          typeCheckExpression fuel ctx1 newExpression typeHint
      | .error err => .error err

/-- The first non-`Unknown` type of a list, `Unknown` if there is none: how
`type_check_match` fixes the common case type. -/
def firstNonUnknown : List Ty → Ty
  | [] => .unknown
  | t :: rest => if t = Ty.unknown then firstNonUnknown rest else t

/-- The trace of one successful run of the case loop of `type_check_match`:
`MatchCasesRun chk targetType ctx returnType cases ts finalType ctx2 cases1`
records in `ts` the body type computed for each case, threading the running
return type exactly as the loop does. -/
inductive MatchCasesRun (chk : Checker) (targetType : Ty) :
    Ctx → Ty → List MatchCase → List Ty → Ty → Ctx → List MatchCase → Prop where
  | nil : ∀ ctx returnType,
      MatchCasesRun chk targetType ctx returnType [] [] returnType ctx []
  | cons : ∀ ctx returnType c caseType ctx1 c1 rest ts finalType ctx2 rest1,
      typeCheckMatchCase chk ctx targetType returnType c = .ok (caseType, ctx1, c1) →
      MatchCasesRun chk targetType ctx1
        (if returnType = Ty.unknown then caseType else returnType) rest ts finalType ctx2 rest1 →
      MatchCasesRun chk targetType ctx returnType (c :: rest) (caseType :: ts) finalType ctx2 (c1 :: rest1)

/-- Modelled from the spec: the module state seen by the driver — the set of
(fully qualified) function names, the set of already-checked functions, and
the finite set of (caller, generic function, substitution) triples occurring
at call sites in the source (§2, §4.6).  Function bodies are irrelevant to
the driver loop and are omitted. -/
structure CModule where
  functions : Finset String
  typeChecked : Finset String
  sourcePairs : Finset (String × String × String)
  deriving DecidableEq

/-- Modelled from the spec: `resolve_types` registers ambient type
declarations in the scope stack; it does not change the function set
(§4.6). -/
def resolveTypesPass (m : CModule) : CModule := m

/-- Modelled from the spec: checking untyped globals does not change the
function set (§4.6). -/
def checkGlobalsPass (m : CModule) : CModule := m

/-- Modelled from the spec: check every function with `type_checked = false`,
flipping the flag to true; the function set is unchanged (§3, §4.6). -/
def checkFunctionsPass (m : CModule) : CModule :=
  { m with typeChecked := m.functions }

/-- Modelled from the spec: the mangled full-name of a monomorphic clone —
original name plus a rendering of the substitution (§4.3). -/
def mangledName (p : String × String) : String :=
  p.1 ++ "<" ++ p.2 ++ ">"

/-- Modelled from the spec: the call-site instantiations whose substitution
is fully determined in the current module state — a source (caller, generic
function, substitution) triple becomes determined once its caller has been
materialised (§4.3). -/
def neededInstantiations (m : CModule) : Finset String :=
  (m.sourcePairs.filter (fun p => p.1 ∈ m.functions)).image fun p => mangledName p.2

/-- Modelled from the spec: `instantiate_generics` — clone each determined
(function, substitution) pair under its mangled name; only adds functions,
and a second invocation with the same inputs does nothing (§4.3). -/
def instantiateGenerics (m : CModule) : CModule :=
  { m with functions := m.functions ∪ neededInstantiations m }

/-- One iteration body of `type_check_module`: resolve types, check globals,
check unchecked functions, then instantiate generics (lines 1100–1118 of
`typecheck.rs`). -/
def modulePass (m : CModule) : CModule :=
  instantiateGenerics (checkFunctionsPass (checkGlobalsPass (resolveTypesPass m)))

/-- The driver loop of `type_check_module` (lines 1100–1123): run one pass,
record the function count before `instantiate_generics`, and stop exactly
when the count is unchanged afterwards.  The fuel bounds the iteration in
this embedding; `none` is the out-of-fuel outcome. -/
def typeCheckModuleLoop : Nat → CModule → Option CModule
  | 0, _ => none
  | fuel + 1, m =>
      let count := m.functions.card
      let m1 := modulePass m
      if m1.functions.card = count then some m1
      else typeCheckModuleLoop fuel m1

/-- All mangled names the source can ever demand: the image of the source
pairs.  The function set can only grow into this universe. -/
def mangledUniverse (m : CModule) : Finset String :=
  m.sourcePairs.image fun p => mangledName p.2

/-- Embeds `type_check_module`: the driver loop run with enough fuel for the
monotone, bounded growth of the function set to stabilise. -/
def typeCheckModule (m : CModule) : Option CModule :=
  typeCheckModuleLoop ((mangledUniverse m \ m.functions).card + 1) m

/-- The empty scope context used by concrete witnesses. -/
def ctx0 : Ctx := Ctx.new

/-- A context binding `x` to `Optional(Int)`, used by concrete witnesses. -/
def ctxOpt : Ctx := ⟨[⟨false, [⟨"x", "x", .optional .int, false⟩]⟩], []⟩

/-- A context binding `g` to the generic type parameter `T`, used by concrete
witnesses. -/
def ctxGen : Ctx := ⟨[⟨false, [⟨"g", "g", .genericAny "T", false⟩]⟩], []⟩

/-- The target of the concrete match expression used by the claim 7
witness. -/
def claim7Target : Expression := .nameRef ⟨"x", .unknown⟩

/-- The cases of the concrete match expression used by the claim 7 witness:
a `nil` pattern and an optional-binding pattern, both with `Int` bodies. -/
def claim7Cases : List MatchCase :=
  [.mk .nilPattern (.literal (.intLit 1)), .mk (.optional "y" .unknown) (.literal (.intLit 2))]

/-- Reduction of the `Except` bind to its underlying match, used to evaluate
the embedded checkers symbolically. -/
theorem exceptBindDef (x : Except CompileError α) (f : α → Except CompileError β) :
    x >>= f = match x with | .error e => .error e | .ok a => f a := by
  cases x <;> rfl

/-- Reduction of `pure` for the `Except` monad. -/
theorem exceptPureDef (a : α) : (pure a : Except CompileError α) = .ok a := rfl

/-- No type equals its own optional wrapping. -/
theorem optionalNeSelf (t : Ty) : Ty.optional t ≠ t := by
  intro h
  have hs := congrArg (fun x => @sizeOf Ty _ x) h
  simp at hs

/-- Converting a type to itself succeeds without touching the expression. -/
theorem convertTypeSame (chk : Checker) (ctx : Ctx) (t : Ty) (e : Expression) :
    convertType chk ctx t t e = .ok (ctx, e) := by
  unfold convertType
  simp

/-- No conversion produces a `Bool`: the conversion set only wraps into
optionals and slices. -/
theorem convertToBoolNone (src : Ty) (e : Expression) :
    Ty.convert .bool src e = none := by
  unfold Ty.convert
  simp

/-- Converting any non-`Bool` type to `Bool` fails. -/
theorem convertTypeBoolError (chk : Checker) (ctx : Ctx) (src : Ty) (e : Expression)
    (h : src ≠ Ty.bool) :
    convertType chk ctx .bool src e = .error (.typeError "type not convertible") := by
  unfold convertType
  rw [if_neg (fun hh => h hh.symm), convertToBoolNone]

/-- C1 (amended): in a `==` or `!=` comparison with non-generic operand
types, whenever either operand has type `Nil` the comparison type checks and
has type `Bool`, regardless of whether the other operand is optional — the
equal-type and operator-support checks are skipped entirely. -/
theorem claim1_amended (chk : Checker) (ctx ctx1 ctx2 : Ctx)
    (l r l1 r1 : Expression) (lt rt typ : Ty) (op : Operator)
    (hl : chk ctx l none = .ok (lt, ctx1, l1))
    (hr : chk ctx1 r none = .ok (rt, ctx2, r1))
    (hgl : lt.isGeneric = false) (hgr : rt.isGeneric = false)
    (hop : op = .equals ∨ op = .notEquals)
    (hnil : lt = Ty.nil ∨ rt = Ty.nil) :
    typeCheckBinaryOp chk ctx op l r typ =
      .ok (.valid .bool (.binaryOp op l1 r1 .bool), ctx2) := by
  have hcond : ¬ (lt ≠ Ty.nil ∧ rt ≠ Ty.nil) := by
    rcases hnil with h | h <;> simp [h]
  rcases hop with h | h <;> subst h <;>
    simp only [typeCheckBinaryOp, exceptBindDef, hl, hr, hgl, hgr, Bool.or_self,
      Bool.false_eq_true, if_false, if_neg hcond] <;>
    rfl

/-- C1 counterexample: `nil == 3` mixes `Nil` with the non-optional `Int`,
yet type checking succeeds with type `Bool` instead of failing. -/
theorem claim1_counterexample :
    typeCheckExpression 2 ctx0
      (.binaryOp .equals .nilExpr (.literal (.intLit 3)) .unknown) none =
      .ok (.bool, ctx0, .binaryOp .equals .nilExpr (.literal (.intLit 3)) .bool) := rfl

/-- C1 witness: the amended theorem applied to the concrete comparison
`nil == 3`. -/
theorem claim1_witness :
    typeCheckBinaryOp (typeCheckExpression 1) ctx0 .equals .nilExpr
      (.literal (.intLit 3)) .unknown =
      .ok (.valid .bool (.binaryOp .equals .nilExpr (.literal (.intLit 3)) .bool), ctx0) :=
  claim1_amended (typeCheckExpression 1) ctx0 ctx0 ctx0 .nilExpr (.literal (.intLit 3))
    .nilExpr (.literal (.intLit 3)) .nil .int .unknown .equals rfl rfl rfl rfl
    (Or.inl rfl) (Or.inl rfl)

/-- C2 (amended): for `||` with non-generic operand types, if the left type
is `Optional` of the right type the expression has the right type
(nil-coalescing); otherwise both operands are coerced to bool, which succeeds
with type `Bool` exactly when both re-check to `Bool`, and fails with a
conversion error whenever either operand re-checks to a non-`Bool` type — in
particular in the swapped case with the plain type on the left and the
optional on the right, where whichever side is reached first fails. -/
theorem claim2_amended (chk : Checker) (ctx ctx1 ctx2 : Ctx)
    (l r l1 r1 : Expression) (lt rt typ : Ty)
    (hl : chk ctx l none = .ok (lt, ctx1, l1))
    (hr : chk ctx1 r none = .ok (rt, ctx2, r1))
    (hgl : lt.isGeneric = false) (hgr : rt.isGeneric = false) :
    (lt = Ty.optional rt →
      typeCheckBinaryOp chk ctx .or l r typ =
        .ok (.valid rt (.binaryOp .or l1 r1 rt), ctx2)) ∧
    (lt ≠ Ty.optional rt →
      ∀ ctx3 ctx4 l2 r2,
        chk ctx2 l1 none = .ok (.bool, ctx3, l2) →
        chk ctx3 r1 none = .ok (.bool, ctx4, r2) →
        typeCheckBinaryOp chk ctx .or l r typ =
          .ok (.valid .bool (.binaryOp .or l2 r2 .bool), ctx4)) ∧
    (lt ≠ Ty.optional rt →
      ∀ ctx3 lt2 l2,
        chk ctx2 l1 none = .ok (lt2, ctx3, l2) → lt2 ≠ Ty.bool →
        typeCheckBinaryOp chk ctx .or l r typ =
          .error (.typeError "type not convertible")) ∧
    (lt ≠ Ty.optional rt →
      ∀ ctx3 l2 rt2 ctx4 r2,
        chk ctx2 l1 none = .ok (.bool, ctx3, l2) →
        chk ctx3 r1 none = .ok (rt2, ctx4, r2) → rt2 ≠ Ty.bool →
        typeCheckBinaryOp chk ctx .or l r typ =
          .error (.typeError "type not convertible")) := by
  refine ⟨fun hopt => ?_, fun hnopt ctx3 ctx4 l2 r2 hl2 hr2 => ?_,
    fun hnopt ctx3 lt2 l2 hl2 hlb => ?_,
    fun hnopt ctx3 l2 rt2 ctx4 r2 hl2 hr2 hrb => ?_⟩
  · simp only [typeCheckBinaryOp, exceptBindDef, hl, hr, hgl, hgr, Bool.or_self,
      Bool.false_eq_true, if_false]
    have : lt.isOptionalOf rt = true := by simp [Ty.isOptionalOf, hopt]
    simp [this]
  · have : lt.isOptionalOf rt = false := by simp [Ty.isOptionalOf, hnopt]
    simp only [typeCheckBinaryOp, exceptBindDef, hl, hr, hgl, hgr, Bool.or_self,
      Bool.false_eq_true, if_false, this, typeCheckWithConversion, hl2, hr2]
    simp only [convertTypeSame]
    rw [hr2]
    simp [convertType]
  · have : lt.isOptionalOf rt = false := by simp [Ty.isOptionalOf, hnopt]
    simp only [typeCheckBinaryOp, exceptBindDef, hl, hr, hgl, hgr, Bool.or_self,
      Bool.false_eq_true, if_false, this, typeCheckWithConversion, hl2]
    rw [convertTypeBoolError chk ctx3 lt2 l2 hlb]
  · have : lt.isOptionalOf rt = false := by simp [Ty.isOptionalOf, hnopt]
    simp only [typeCheckBinaryOp, exceptBindDef, hl, hr, hgl, hgr, Bool.or_self,
      Bool.false_eq_true, if_false, this, typeCheckWithConversion, hl2, hr2]
    simp only [convertTypeSame]
    rw [hr2]
    simp only [convertType, convertToBoolNone]
    rw [if_neg (fun hh => hrb hh.symm)]

/-- C2 counterexample: in the non-coalescing direction `true || x` with
`x : Optional(Int)`, the claim predicts type `Bool`, but the boolean rule
fails to convert the optional operand and type checking errors. -/
theorem claim2_counterexample :
    typeCheckExpression 3 ctxOpt
      (.binaryOp .or (.literal (.boolLit true)) (.nameRef ⟨"x", .unknown⟩) .unknown) none =
      .error (.typeError "type not convertible") := rfl

/-- C2 witness: the amended theorem applied to `x || 3` with
`x : Optional(Int)`; the nil-coalescing conjunct yields type `Int`. -/
theorem claim2_witness :
    (Ty.optional .int = Ty.optional .int →
      typeCheckBinaryOp (typeCheckExpression 1) ctxOpt .or (.nameRef ⟨"x", .unknown⟩)
        (.literal (.intLit 3)) .unknown =
        .ok (.valid .int (.binaryOp .or (.nameRef ⟨"x", .optional .int⟩)
          (.literal (.intLit 3)) .int), ctxOpt)) ∧
    (Ty.optional .int ≠ Ty.optional .int →
      ∀ ctx3 ctx4 l2 r2,
        typeCheckExpression 1 ctxOpt (.nameRef ⟨"x", .optional .int⟩) none = .ok (.bool, ctx3, l2) →
        typeCheckExpression 1 ctx3 (.literal (.intLit 3)) none = .ok (.bool, ctx4, r2) →
        typeCheckBinaryOp (typeCheckExpression 1) ctxOpt .or (.nameRef ⟨"x", .unknown⟩)
          (.literal (.intLit 3)) .unknown =
          .ok (.valid .bool (.binaryOp .or l2 r2 .bool), ctx4)) ∧
    (Ty.optional .int ≠ Ty.optional .int →
      ∀ ctx3 lt2 l2,
        typeCheckExpression 1 ctxOpt (.nameRef ⟨"x", .optional .int⟩) none = .ok (lt2, ctx3, l2) →
        lt2 ≠ Ty.bool →
        typeCheckBinaryOp (typeCheckExpression 1) ctxOpt .or (.nameRef ⟨"x", .unknown⟩)
          (.literal (.intLit 3)) .unknown =
          .error (.typeError "type not convertible")) ∧
    (Ty.optional .int ≠ Ty.optional .int →
      ∀ ctx3 l2 rt2 ctx4 r2,
        typeCheckExpression 1 ctxOpt (.nameRef ⟨"x", .optional .int⟩) none = .ok (.bool, ctx3, l2) →
        typeCheckExpression 1 ctx3 (.literal (.intLit 3)) none = .ok (rt2, ctx4, r2) →
        rt2 ≠ Ty.bool →
        typeCheckBinaryOp (typeCheckExpression 1) ctxOpt .or (.nameRef ⟨"x", .unknown⟩)
          (.literal (.intLit 3)) .unknown =
          .error (.typeError "type not convertible")) :=
  claim2_amended (typeCheckExpression 1) ctxOpt ctxOpt ctxOpt
    (.nameRef ⟨"x", .unknown⟩) (.literal (.intLit 3))
    (.nameRef ⟨"x", .optional .int⟩) (.literal (.intLit 3))
    (.optional .int) .int .unknown rfl rfl rfl rfl

/-- C3 (amended): for an if expression with both branches present where one
branch checks to `Nil` and the other to some type `T` other than `Nil`, type
checking succeeds, the whole expression has type `Optional(T)`, and the
non-Nil branch is wrapped in a `ToOptional` node while the Nil branch is left
unchanged. -/
theorem claim3_amended (chk : Checker) :
    (∀ ctx ctx1 ctx2 ctx3 ctxa ctx4 cond cond1 onTrue t1 t2 f f1 w1 tt typ,
      typeCheckWithConversion chk ctx cond .bool = .ok (ctx1, cond1) →
      chk ctx1 onTrue none = .ok (tt, ctx2, t1) →
      chk ctx2 f none = .ok (.nil, ctx3, f1) →
      tt ≠ Ty.nil →
      chk ctx3 t1 none = .ok (tt, ctxa, t2) →
      chk ctxa (.toOptional t2 (.optional tt)) none = .ok (.optional tt, ctx4, w1) →
      typeCheckIf chk ctx cond onTrue (some f) typ =
        .ok (.valid (.optional tt) (.ifExpr cond1 w1 (some f1) (.optional tt)), ctx4)) ∧
    (∀ ctx ctx1 ctx2 ctx3 ctxa ctx4 cond cond1 onTrue t1 f f1 f2 w1 ft typ,
      typeCheckWithConversion chk ctx cond .bool = .ok (ctx1, cond1) →
      chk ctx1 onTrue none = .ok (.nil, ctx2, t1) →
      chk ctx2 f none = .ok (ft, ctx3, f1) →
      ft ≠ Ty.nil →
      chk ctx3 f1 none = .ok (ft, ctxa, f2) →
      chk ctxa (.toOptional f2 (.optional ft)) none = .ok (.optional ft, ctx4, w1) →
      typeCheckIf chk ctx cond onTrue (some f) typ =
        .ok (.valid (.optional ft) (.ifExpr cond1 t1 (some w1) (.optional ft)), ctx4)) := by
  constructor
  · intro ctx ctx1 ctx2 ctx3 ctxa ctx4 cond cond1 onTrue t1 t2 f f1 w1 tt typ
      hc ht hf htt hre hw
    simp only [typeCheckIf, exceptBindDef, exceptPureDef, hc, ht, hf]
    rw [if_pos htt]
    rw [if_neg htt]
    simp only [if_pos rfl, optionalType, typeCheckWithConversion, exceptBindDef, hre,
      convertType]
    rw [if_neg (optionalNeSelf tt)]
    simp only [Ty.convert, if_pos rfl, exceptBindDef, hw, if_true]
  · intro ctx ctx1 ctx2 ctx3 ctxa ctx4 cond cond1 onTrue t1 f f1 f2 w1 ft typ
      hc ht hf hft hre hw
    simp only [typeCheckIf, exceptBindDef, exceptPureDef, hc, ht, hf]
    rw [if_pos (fun hh : Ty.nil = ft => hft hh.symm)]
    simp only [if_pos rfl, optionalType, typeCheckWithConversion, exceptBindDef, hre,
      convertType]
    rw [if_neg (optionalNeSelf ft)]
    simp only [Ty.convert, if_pos rfl, exceptBindDef, hw, if_true]

/-- C3 counterexample: on `if true then 3 else nil` the checker wraps the
non-Nil branch `3` in `ToOptional` and leaves the `nil` branch untouched —
not the other way round, as the claim states. -/
theorem claim3_counterexample :
    typeCheckExpression 3 ctx0
      (.ifExpr (.literal (.boolLit true)) (.literal (.intLit 3)) (some .nilExpr) .unknown) none =
      .ok (.optional .int, ctx0,
        .ifExpr (.literal (.boolLit true)) (.toOptional (.literal (.intLit 3)) (.optional .int))
          (some .nilExpr) (.optional .int)) := rfl

/-- C3 witness: the amended theorem applied to `if true then 3 else nil`. -/
theorem claim3_witness :
    typeCheckIf (typeCheckExpression 2) ctx0 (.literal (.boolLit true))
      (.literal (.intLit 3)) (some .nilExpr) .unknown =
      .ok (.valid (.optional .int)
        (.ifExpr (.literal (.boolLit true))
          (.toOptional (.literal (.intLit 3)) (.optional .int))
          (some .nilExpr) (.optional .int)), ctx0) :=
  (claim3_amended (typeCheckExpression 2)).1 ctx0 ctx0 ctx0 ctx0 ctx0 ctx0
    (.literal (.boolLit true)) (.literal (.boolLit true))
    (.literal (.intLit 3)) (.literal (.intLit 3)) (.literal (.intLit 3))
    .nilExpr .nilExpr (.toOptional (.literal (.intLit 3)) (.optional .int))
    .int .unknown rfl rfl rfl (fun h => nomatch h) rfl rfl

/-- C4 (amended): a cast succeeds exactly when the inner type and the
destination type are two distinct members of `{Int, UInt, Float}`, in which
case the cast has the destination type; every other combination — including
identity casts such as `cast<Int>` on an `Int` — fails with a cast error. -/
theorem claim4_amended (chk : Checker) (ctx ctx1 : Ctx) (inner inner1 : Expression)
    (t dst : Ty)
    (hi : chk ctx inner none = .ok (t, ctx1, inner1)) :
    typeCheckCast chk ctx inner dst =
      if (t = Ty.int ∧ dst = Ty.uint) ∨ (t = Ty.int ∧ dst = Ty.float) ∨
          (t = Ty.uint ∧ dst = Ty.int) ∨ (t = Ty.uint ∧ dst = Ty.float) ∨
          (t = Ty.float ∧ dst = Ty.int) ∨ (t = Ty.float ∧ dst = Ty.uint) then
        .ok (.valid dst (.cast inner1 dst), ctx1)
      else .error (.typeError "cast is not allowed") := by
  simp only [typeCheckCast, exceptBindDef, hi]
  cases t <;> cases dst <;> simp

/-- C4 counterexample: `cast<Int>(1)` with the inner expression already of
type `Int` has both types in `{Int, UInt, Float}`, yet the cast is
rejected. -/
theorem claim4_counterexample :
    typeCheckExpression 2 ctx0 (.cast (.literal (.intLit 1)) .int) none =
      .error (.typeError "cast is not allowed") := rfl

/-- C4 witness: the amended theorem applied to `cast<UInt>(1)`. -/
theorem claim4_witness :
    typeCheckCast (typeCheckExpression 1) ctx0 (.literal (.intLit 1)) .uint =
      if (Ty.int = Ty.int ∧ Ty.uint = Ty.uint) ∨ (Ty.int = Ty.int ∧ Ty.uint = Ty.float) ∨
          (Ty.int = Ty.uint ∧ Ty.uint = Ty.int) ∨ (Ty.int = Ty.uint ∧ Ty.uint = Ty.float) ∨
          (Ty.int = Ty.float ∧ Ty.uint = Ty.int) ∨ (Ty.int = Ty.float ∧ Ty.uint = Ty.uint) then
        .ok (.valid .uint (.cast (.literal (.intLit 1)) .uint), ctx0)
      else .error (.typeError "cast is not allowed") :=
  claim4_amended (typeCheckExpression 1) ctx0 ctx0 (.literal (.intLit 1))
    (.literal (.intLit 1)) .int .uint rfl

/-- C5 (amended): every empty array literal type-checks to `Array(Int, 0)`
regardless of the surrounding type hint and of any pre-set array type on the
node; a hinted context expecting `Array(T, 0)` is therefore matched only when
`T = Int`, because the hint is never consulted. -/
theorem claim5_amended (fuel : Nat) (ctx : Ctx) (typeHint : Option Ty) (arrayTyp : Ty) :
    typeCheckExpression (fuel + 1) ctx (.literal (.arrayLit [] arrayTyp)) typeHint =
      .ok (.array .int 0, ctx, .literal (.arrayLit [] (.array .int 0))) := rfl

/-- C5 counterexample: an empty array literal checked with the hint
`Array(Bool, 0)` still types as `Array(Int, 0)` — the hinted type is not
accepted. -/
theorem claim5_counterexample :
    typeCheckExpression 1 ctx0 (.literal (.arrayLit [] .unknown)) (some (.array .bool 0)) =
      .ok (.array .int 0, ctx0, .literal (.arrayLit [] (.array .int 0))) ∧
    Ty.array .int 0 ≠ Ty.array .bool 0 := ⟨rfl, by decide⟩

/-- C6: for an if expression without an else branch whose condition converts
to bool, type checking succeeds exactly when the then-branch has type `Void`,
and errors otherwise. -/
theorem claim6 (chk : Checker) (ctx ctx1 ctx2 : Ctx) (cond cond1 onTrue t1 : Expression)
    (tt typ : Ty)
    (hc : typeCheckWithConversion chk ctx cond .bool = .ok (ctx1, cond1))
    (ht : chk ctx1 onTrue none = .ok (tt, ctx2, t1)) :
    typeCheckIf chk ctx cond onTrue none typ =
      if tt = Ty.void then .ok (.valid .void (.ifExpr cond1 t1 none .void), ctx2)
      else .error (.typeError "if expressions without an else part must return void") := by
  simp only [typeCheckIf, exceptBindDef, exceptPureDef, hc, ht]
  by_cases h : tt = Ty.void
  · subst h
    simp
  · rw [if_pos h, if_neg h]

/-- C6 witness: the theorem applied to `if true then <void>` with a `Void`
then-branch. -/
theorem claim6_witness :
    typeCheckIf (typeCheckExpression 1) ctx0 (.literal (.boolLit true)) .voidExpr none .unknown =
      if Ty.void = Ty.void then
        .ok (.valid .void (.ifExpr (.literal (.boolLit true)) .voidExpr none .void), ctx0)
      else .error (.typeError "if expressions without an else part must return void") :=
  claim6 (typeCheckExpression 1) ctx0 ctx0 ctx0 (.literal (.boolLit true))
    (.literal (.boolLit true)) .voidExpr .voidExpr .void .unknown rfl rfl

/-- A successful `infer_case_type` either ran with the return type still
`Unknown` or produced exactly the already-fixed return type. -/
theorem inferCaseTypeSame (chk : Checker) (ctx : Ctx) (e : Expression) (R tt : Ty)
    (ctx1 : Ctx) (e1 : Expression)
    (h : inferCaseType chk ctx e R = .ok (tt, ctx1, e1)) :
    R = Ty.unknown ∨ tt = R := by
  simp only [inferCaseType, exceptBindDef] at h
  split at h
  · simp at h
  · split at h
    · simp at h
    · rename_i hcond
      push_neg at hcond
      simp only [Except.ok.injEq, Prod.mk.injEq] at h
      by_cases hR : R = Ty.unknown
      · exact Or.inl hR
      · exact Or.inr (h.1 ▸ (hcond hR).symm)

/-- A successful match case either ran with the return type still `Unknown`
or its body type equals the fixed return type — every pattern arm threads its
body through `infer_case_type`. -/
theorem matchCaseSame (chk : Checker) (ctx : Ctx) (tgt R : Ty) (c : MatchCase)
    (ct : Ty) (ctx1 : Ctx) (c1 : MatchCase)
    (h : typeCheckMatchCase chk ctx tgt R c = .ok (ct, ctx1, c1)) :
    R = Ty.unknown ∨ ct = R := by
  rcases c with ⟨pat, body⟩
  cases pat <;>
    simp only [typeCheckMatchCase, exceptBindDef, exceptPureDef] at h <;>
    (repeat' split at h) <;>
    first
      | (rename_i v heq
         simp only [Except.ok.injEq, Prod.mk.injEq] at h
         rcases inferCaseTypeSame _ _ _ _ _ _ _ heq with hu | he
         · exact Or.inl hu
         · exact Or.inr (by rw [← h.1]; exact he))
      | simp at h

/-- Every successful run of the case loop of `type_check_match` is described
by a `MatchCasesRun` trace recording the per-case body types. -/
theorem matchCasesRunExists (chk : Checker) (tgt : Ty) :
    ∀ (cs : List MatchCase) (ctx : Ctx) (R T : Ty) (ctx2 : Ctx) (cs1 : List MatchCase),
      typeCheckMatchCases chk ctx tgt R cs = .ok (T, ctx2, cs1) →
      ∃ ts, MatchCasesRun chk tgt ctx R cs ts T ctx2 cs1 := by
  intro cs
  induction cs with
  | nil =>
      intro ctx R T ctx2 cs1 h
      simp only [typeCheckMatchCases, Except.ok.injEq, Prod.mk.injEq] at h
      obtain ⟨h1, h2, h3⟩ := h
      subst h1; subst h2; subst h3
      exact ⟨[], .nil ctx R⟩
  | cons c rest ih =>
      intro ctx R T ctx2 cs1 h
      simp only [typeCheckMatchCases, exceptBindDef, exceptPureDef] at h
      split at h
      · simp at h
      · rename_i v heq
        split at h
        · rename_i hR
          split at h
          · simp at h
          · rename_i w heq2
            simp only [Except.ok.injEq, Prod.mk.injEq] at h
            obtain ⟨h1, h2, h3⟩ := h
            subst h1; subst h2
            obtain ⟨ts, hrun⟩ := ih _ _ _ _ _ heq2
            refine ⟨v.1 :: ts, ?_⟩
            rw [← h3]
            have := @MatchCasesRun.cons chk tgt ctx R c v.1 v.2.1 v.2.2
              rest ts w.1 w.2.1 w.2.2 heq ?_
            · exact this
            · rw [if_pos hR]
              exact hrun
        · rename_i hR
          split at h
          · simp at h
          · split at h
            · simp at h
            · rename_i w heq2
              simp only [Except.ok.injEq, Prod.mk.injEq] at h
              obtain ⟨h1, h2, h3⟩ := h
              subst h1; subst h2
              obtain ⟨ts, hrun⟩ := ih _ _ _ _ _ heq2
              refine ⟨v.1 :: ts, ?_⟩
              rw [← h3]
              have := @MatchCasesRun.cons chk tgt ctx R c v.1 v.2.1 v.2.2
                rest ts w.1 w.2.1 w.2.2 heq ?_
              · exact this
              · rw [if_neg hR]
                exact hrun

/-- Along a `MatchCasesRun` trace, the final type is the incoming return type
when that is already fixed, and the first non-`Unknown` body type
otherwise. -/
theorem matchCasesRunFixes (chk : Checker) (tgt : Ty)
    {ctx : Ctx} {R : Ty} {cs : List MatchCase} {ts : List Ty} {T : Ty}
    {ctx2 : Ctx} {cs1 : List MatchCase}
    (hrun : MatchCasesRun chk tgt ctx R cs ts T ctx2 cs1) :
    T = if R = Ty.unknown then firstNonUnknown ts else R := by
  induction hrun with
  | nil ctx R =>
      by_cases hR : R = Ty.unknown
      · simp [hR, firstNonUnknown]
      · simp [hR]
  | cons ctx R c ct ctx1 c1 rest ts T ctx2 rest1 heq htail ih =>
      by_cases hR : R = Ty.unknown
      · rw [if_pos hR]
        rw [if_pos hR] at ih
        by_cases hct : ct = Ty.unknown
        · simp [firstNonUnknown, hct, hR] at ih ⊢
          exact ih
        · simp [firstNonUnknown, hct, hR] at ih ⊢
          exact ih
      · rw [if_neg hR]
        rw [if_neg hR] at ih
        rw [if_neg hR] at ih
        exact ih

/-- Along a `MatchCasesRun` trace, every non-`Unknown` body type equals the
final type: a later case whose body type differed would have errored. -/
theorem matchCasesRunAgree (chk : Checker) (tgt : Ty)
    {ctx : Ctx} {R : Ty} {cs : List MatchCase} {ts : List Ty} {T : Ty}
    {ctx2 : Ctx} {cs1 : List MatchCase}
    (hrun : MatchCasesRun chk tgt ctx R cs ts T ctx2 cs1) :
    ∀ t ∈ ts, t ≠ Ty.unknown → t = T := by
  induction hrun with
  | nil ctx R => intro t ht; simp at ht
  | cons ctx R c ct ctx1 c1 rest ts T ctx2 rest1 heq htail ih =>
      intro t ht hne
      rcases List.mem_cons.mp ht with rfl | hmem
      · have hfix := matchCasesRunFixes chk tgt htail
        rcases matchCaseSame _ _ _ _ _ _ _ _ heq with hR | hct
        · rw [if_pos hR] at hfix
          rw [hfix]
          simp [firstNonUnknown, hne]
        · by_cases hR : R = Ty.unknown
          · exact absurd (hR ▸ hct) hne
          · rw [if_neg hR] at hfix
            rw [if_neg hR] at hfix
            rw [hfix, ← hct]
      · exact ih t hmem hne

/-- C7: every match expression that type checks successfully checked its
target, ran all cases in order producing the recorded body types `ts`, fixed
the match type at the first non-`Unknown` body type, required every later
non-`Unknown` body type to equal it, and only after all cases passed ran the
exhaustiveness check successfully on the rewritten cases. -/
theorem claim7 (chk : Checker) (ctx : Ctx) (target : Expression)
    (cases1 : List MatchCase) (typ T : Ty) (m1 : Expression) (ctxF : Ctx)
    (h : typeCheckMatch chk ctx target cases1 typ = .ok (.valid T m1, ctxF)) :
    ∃ targetType ctxA target1 ts ctxB cases2,
      chk ctx target none = .ok (targetType, ctxA, target1) ∧
      MatchCasesRun chk targetType ctxA .unknown cases1 ts T ctxB cases2 ∧
      T = firstNonUnknown ts ∧
      (∀ t ∈ ts, t ≠ Ty.unknown → t = T) ∧
      m1 = .matchExpr target1 cases2 T ∧ ctxF = ctxB ∧
      checkMatchIsExhaustive (cases2.map MatchCase.pattern) targetType = .ok () := by
  simp only [typeCheckMatch, exceptBindDef] at h
  split at h
  · simp at h
  · rename_i v heqT
    split at h
    · simp at h
    · rename_i w heqC
      split at h
      · simp at h
      · rename_i u heqE
        simp only [Except.ok.injEq, Prod.mk.injEq, TypeCheckAction.valid.injEq] at h
        obtain ⟨⟨hT, hm⟩, hctx⟩ := h
        obtain ⟨ts, hrun⟩ := matchCasesRunExists chk v.1 cases1 v.2.1 .unknown w.1 w.2.1 w.2.2 heqC
        have hfix := matchCasesRunFixes chk v.1 hrun
        rw [if_pos rfl] at hfix
        refine ⟨v.1, v.2.1, v.2.2, ts, w.2.1, w.2.2, heqT, ?_, ?_, ?_, ?_, ?_, ?_⟩
        · rw [← hT]; exact hrun
        · rw [← hT]; exact hfix
        · intro t ht hne
          rw [← hT]
          exact matchCasesRunAgree chk v.1 hrun t ht hne
        · rw [← hm, hT]
        · exact hctx.symm
        · cases u
          exact heqE

/-- C7 witness: the theorem applied to a concrete successful match on an
optional target with a `nil` case and an optional-binding case, both of type
`Int`. -/
theorem claim7_witness :
    ∃ targetType ctxA target1 ts ctxB cases2,
      typeCheckExpression 5 ctxOpt claim7Target none = .ok (targetType, ctxA, target1) ∧
      MatchCasesRun (typeCheckExpression 5) targetType ctxA .unknown claim7Cases ts .int ctxB cases2 ∧
      Ty.int = firstNonUnknown ts ∧
      (∀ t ∈ ts, t ≠ Ty.unknown → t = Ty.int) ∧
      Expression.matchExpr (.nameRef ⟨"x", .optional .int⟩)
        [.mk .nilPattern (.literal (.intLit 1)), .mk (.optional "y" .int) (.literal (.intLit 2))] .int =
        .matchExpr target1 cases2 .int ∧ ctxOpt = ctxB ∧
      checkMatchIsExhaustive (cases2.map MatchCase.pattern) targetType = .ok () :=
  claim7 (typeCheckExpression 5) ctxOpt claim7Target claim7Cases .unknown .int
    (.matchExpr (.nameRef ⟨"x", .optional .int⟩)
      [.mk .nilPattern (.literal (.intLit 1)), .mk (.optional "y" .int) (.literal (.intLit 2))] .int)
    ctxOpt rfl

/-- One driver pass only adds the needed instantiations to the function
set. -/
theorem modulePassFunctions (m : CModule) :
    (modulePass m).functions = m.functions ∪ neededInstantiations m := rfl

/-- The source pairs are never changed by a driver pass. -/
theorem modulePassSourcePairs (m : CModule) :
    (modulePass m).sourcePairs = m.sourcePairs := rfl

/-- Needed instantiations always come from the fixed mangled universe. -/
theorem neededSubsetUniverse (m : CModule) :
    neededInstantiations m ⊆ mangledUniverse m :=
  Finset.image_subset_image (Finset.filter_subset _ _)

/-- The mangled universe is invariant under a driver pass. -/
theorem mangledUniversePass (m : CModule) :
    mangledUniverse (modulePass m) = mangledUniverse m := rfl

/-- Any fuel exceeding the number of not-yet-materialised mangled names makes
the driver loop reach its break instead of running out. -/
theorem loopEnoughFuel :
    ∀ (fuel : Nat) (m : CModule),
      (mangledUniverse m \ m.functions).card < fuel →
      (typeCheckModuleLoop fuel m).isSome = true := by
  intro fuel
  induction fuel with
  | zero => intro m h; omega
  | succ n ih =>
      intro m h
      unfold typeCheckModuleLoop
      by_cases hc : (modulePass m).functions.card = m.functions.card
      · simp [hc]
      · simp only [hc, if_false]
        apply ih
        have hsub : m.functions ⊆ (modulePass m).functions := by
          rw [modulePassFunctions]; exact Finset.subset_union_left
        have hssub : m.functions ⊂ (modulePass m).functions :=
          Finset.ssubset_iff_subset_ne.mpr ⟨hsub, fun he => hc (congrArg Finset.card he.symm)⟩
        obtain ⟨x, hxp, hxm⟩ := Finset.exists_of_ssubset hssub
        have hxU : x ∈ mangledUniverse m := by
          rw [modulePassFunctions] at hxp
          rcases Finset.mem_union.mp hxp with hx | hx
          · exact absurd hx hxm
          · exact neededSubsetUniverse m hx
        have hstrict : mangledUniverse (modulePass m) \ (modulePass m).functions ⊂
            mangledUniverse m \ m.functions := by
          rw [mangledUniversePass]
          constructor
          · exact Finset.sdiff_subset_sdiff (le_refl _) hsub
          · intro hcontra
            have hx1 : x ∈ mangledUniverse m \ m.functions := Finset.mem_sdiff.mpr ⟨hxU, hxm⟩
            have hx2 := hcontra hx1
            exact (Finset.mem_sdiff.mp hx2).2 hxp
        have := Finset.card_lt_card hstrict
        omega

/-- Whatever the fuel, a loop result is always the output of some pass that
left the function count unchanged. -/
theorem loopStopCharacterisation :
    ∀ (fuel : Nat) (m m1 : CModule),
      typeCheckModuleLoop fuel m = some m1 →
      ∃ mPrev, m1 = modulePass mPrev ∧
        (modulePass mPrev).functions.card = mPrev.functions.card := by
  intro fuel
  induction fuel with
  | zero => intro m m1 h; simp [typeCheckModuleLoop] at h
  | succ n ih =>
      intro m m1 h
      unfold typeCheckModuleLoop at h
      by_cases hc : (modulePass m).functions.card = m.functions.card
      · simp only [hc, if_true] at h
        exact ⟨m, (Option.some.injEq _ _ ▸ h).symm, hc⟩
      · simp only [hc, if_false] at h
        exact ih _ _ h

/-- C8: the `type_check_module` driver loop terminates — the fuel bound
computed from the finite set of source instantiations always suffices — and
it stops exactly when a pass leaves the function count unchanged after
`instantiate_generics`: every returned module is the output of a pass that
did not change the count, and as soon as a pass leaves the count unchanged
the loop returns immediately. -/
theorem claim8_driver :
    (∀ m : CModule, (typeCheckModule m).isSome = true) ∧
    (∀ (fuel : Nat) (m m1 : CModule),
      typeCheckModuleLoop fuel m = some m1 →
      ∃ mPrev, m1 = modulePass mPrev ∧
        (modulePass mPrev).functions.card = mPrev.functions.card) ∧
    (∀ (fuel : Nat) (m : CModule),
      (modulePass m).functions.card = m.functions.card →
      typeCheckModuleLoop (fuel + 1) m = some (modulePass m)) := by
  refine ⟨fun m => ?_, loopStopCharacterisation, fun fuel m hc => ?_⟩
  · exact loopEnoughFuel _ m (Nat.lt_succ_self _)
  · unfold typeCheckModuleLoop
    simp [hc]

/-- C8 witness: the driver theorem applied to a one-function module with no
generic call sites, which stabilises after a single pass. -/
theorem claim8_witness :
    typeCheckModuleLoop 1 ⟨{"main"}, ∅, ∅⟩ = some (modulePass ⟨{"main"}, ∅, ∅⟩) :=
  claim8_driver.2.2 0 ⟨{"main"}, ∅, ∅⟩ (by decide)

/-- C9: in a binary operation where either operand checks to a generic type,
the checker returns the left operand type immediately for every operator —
including operators that are not even binary — performing neither the
equal-type check nor the operator-support check. -/
theorem claim9 (chk : Checker) (ctx ctx1 ctx2 : Ctx) (l r l1 r1 : Expression)
    (lt rt typ : Ty) (op : Operator)
    (hl : chk ctx l none = .ok (lt, ctx1, l1))
    (hr : chk ctx1 r none = .ok (rt, ctx2, r1))
    (hgen : lt.isGeneric = true ∨ rt.isGeneric = true) :
    typeCheckBinaryOp chk ctx op l r typ =
      .ok (.valid lt (.binaryOp op l1 r1 typ), ctx2) := by
  simp only [typeCheckBinaryOp, exceptBindDef, hl, hr]
  rcases hgen with h | h <;> simp [h]

/-- C9 witness: the theorem applied to `g && 3` with `g` of generic type `T`,
an operand pairing that the boolean rule would reject. -/
theorem claim9_witness :
    typeCheckBinaryOp (typeCheckExpression 1) ctxGen .and (.nameRef ⟨"g", .unknown⟩)
      (.literal (.intLit 3)) .unknown =
      .ok (.valid (.genericAny "T")
        (.binaryOp .and (.nameRef ⟨"g", .genericAny "T"⟩) (.literal (.intLit 3)) .unknown),
        ctxGen) :=
  claim9 (typeCheckExpression 1) ctxGen ctxGen ctxGen (.nameRef ⟨"g", .unknown⟩)
    (.literal (.intLit 3)) (.nameRef ⟨"g", .genericAny "T"⟩) (.literal (.intLit 3))
    (.genericAny "T") .int .unknown .and rfl rfl (Or.inl rfl)

/-- C10: type checking a name reference whose name is the wildcard always
succeeds with type `Unknown` in every scope context, without consulting the
scope stack — the wildcard can never raise an unknown-name error. -/
theorem claim10 (ctx : Ctx) (t : Ty) (typeHint : Option Ty) :
    typeCheckName ctx ⟨"_", t⟩ typeHint = .ok (.unknown, ctx, ⟨"_", t⟩) := rfl
